import Mathlib

set_option maxRecDepth 100000

unseal Rat.add Rat.mul Rat.inv Rat.sub

/-
  Verification development for the multi-agent travel-planning orchestrator.

  Shallow embedding of:
  - src/agents/stylist.py   (style classification)
  - src/mcp_server/server.py (command log, weather merge, hotel-analysis step,
    refinement fallback)
  - src/agents/reviewer.py  (reviewer error paths)
  - src/app.py              (reconciliation pass and budget summary)

  Modelling conventions:
  - Python numbers (floats) are modelled as rationals; int() truncation toward
    zero is pyInt below.
  - ISO date strings ("YYYY-MM-DD") are totally ordered by code-point order,
    which coincides with chronological order; forecast dates are modelled as
    naturals through that order isomorphism.
  - Python dicts are modelled as structures; a field that the code reads with
    .get and that may be absent is an Option.  A dict value whose truthiness
    the code tests is modelled so that none / [] / "" are the falsy cases.
  - Fallible Python code (uncaught exceptions) is modelled in Except String.
  - Real time stamps, HTTP calls and photo URLs are irrelevant to every claim
    and are omitted from the structures.
-/

/-- Python int() applied to a float: truncation toward zero. -/
def pyInt (q : ℚ) : ℤ :=
  if 0 ≤ q then q.floor else -((-q).floor)

/-- Python round(x) with ndigits absent: round half to even, to an integer.
The half literal is written with mkRat so that concrete instances evaluate
inside the kernel. -/
def pyRoundEven (q : ℚ) : ℤ :=
  if q - (q.floor : ℚ) < mkRat 1 2 then q.floor
  else if mkRat 1 2 < q - (q.floor : ℚ) then q.floor + 1
  else if Even q.floor then q.floor else q.floor + 1

/-- Python round(x, 1): round half to even at one decimal place. -/
def pyRound1 (q : ℚ) : ℚ :=
  mkRat (pyRoundEven (q * 10)) 10

/-- Membership test of a character-list pattern at the head of a haystack,
as used by Python string containment. -/
def isPref : List Char → List Char → Bool
  | [], _ => true
  | _ :: _, [] => false
  | a :: as, b :: bs => a == b && isPref as bs

/-- Python substring containment `needle in haystack` on character lists. -/
def isSub (n : List Char) (h : List Char) : Bool :=
  match h with
  | [] => n.isEmpty
  | _ :: t => isPref n h || isSub n t

theorem isPref_iff (n h : List Char) : isPref n h = true ↔ n <+: h := by
  induction n generalizing h with
  | nil => simp [isPref]
  | cons a as ih =>
    cases h with
    | nil => simp [isPref]
    | cons b bs =>
      simp only [isPref, Bool.and_eq_true, beq_iff_eq, ih, List.cons_prefix_cons]

theorem isSub_iff (n h : List Char) : isSub n h = true ↔ n <:+: h := by
  induction h with
  | nil =>
    simp only [isSub, List.isEmpty_iff]
    constructor
    · intro e; simp [e]
    · intro e; rcases e with ⟨s, t, e⟩
      exact (List.append_eq_nil.mp (List.append_eq_nil.mp e).1).2
  | cons b bs ih =>
    simp only [isSub, Bool.or_eq_true, isPref_iff, ih]
    exact (@List.infix_cons_iff Char n b bs).symm

/-- Python str.lower(): character-wise lowering. -/
def lowerStr (s : String) : String := ⟨s.data.map Char.toLower⟩

-- ===============================================================
-- Stylist agent: src/agents/stylist.py, analyze_travel_style
-- ===============================================================

/-- Keyword table of StylistAgent.travel_styles (declaration order is the
Python dict insertion order; only id and keywords are used by the scorer). -/
def travel_styles : List (String × List String) :=
  [ ("family", ["family", "kids", "children", "가족", "아이", "어린이"])
  , ("business", ["business", "corporate", "meeting", "conference", "비즈니스", "업무", "회의"])
  , ("backpacker", ["backpacker", "budget", "hostel", "cheap", "백패커", "배낭여행", "저렴"])
  , ("cultural", ["culture", "history", "museum", "heritage", "문화", "역사", "박물관", "유산"])
  , ("luxury", ["luxury", "premium", "high-end", "exclusive", "럭셔리", "프리미엄", "고급"])
  , ("adventure", ["adventure", "outdoor", "extreme", "hiking", "모험", "아웃도어", "등산", "익스트림"])
  ]

/-- The six style ids, in declaration order. -/
def sixStyles : List String :=
  ["family", "business", "backpacker", "cultural", "luxury", "adventure"]

structure StyleAnalysis where
  primary_style : String
  confidence : ℕ
  matched_keywords : List String
deriving DecidableEq, Repr

/-- Per-style matched keywords: the loop over style_info["keywords"] testing
`keyword in user_text`; score is the length of the matched list. -/
def styleScores (userText : String) : List (String × List String) :=
  travel_styles.map
    (fun s => (s.1, s.2.filter (fun k => isSub k.toList userText.toList)))

/-- Python max(..., key=score) over items in insertion order: a later item
replaces the current best only when strictly greater. -/
def bestOf (x : String × List String) (xs : List (String × List String)) :
    String × List String :=
  xs.foldl (fun best cur => if best.2.length < cur.2.length then cur else best) x

/-- First maximal element of the score table. -/
def maxItem : List (String × List String) → String × List String
  | [] => ("", [])
  | x :: xs => bestOf x xs

/-- Zero-score fallback of analyze_travel_style (lines 113-125). -/
def fallback_pick (people budget : ℤ) : String :=
  if 3 ≤ people then "family"
  else if 3000000 ≤ budget then "luxury"
  else if budget ≤ 1000000 then "backpacker"
  else "cultural"

/-- StylistAgent.analyze_travel_style, with the lowered stringification of the
query dict passed as userText, and the people/budget fields read by the
fallback passed separately. -/
def analyze_travel_style (userText : String) (people budget : ℤ) : StyleAnalysis :=
  if (maxItem (styleScores userText)).2.length = 0 then
    ⟨fallback_pick people budget,
     (((styleScores userText).find?
        (fun s => s.1 == fallback_pick people budget)).getD
          (fallback_pick people budget, [])).2.length,
     (((styleScores userText).find?
        (fun s => s.1 == fallback_pick people budget)).getD
          (fallback_pick people budget, [])).2⟩
  else
    ⟨(maxItem (styleScores userText)).1,
     (maxItem (styleScores userText)).2.length,
     (maxItem (styleScores userText)).2⟩

/-- Travel request as built by src/app.py lines 194-208 (the preferences
sub-dict is the fixed constant written there). -/
structure Query where
  origin : String
  destination : String
  departure_date : String
  return_date : String
  days : ℤ
  people : ℤ
  budget : ℤ
  travel_style : String
deriving DecidableEq, Repr

/-- Python str() of the query dict of src/app.py lines 194-208, keys in
insertion order (braces written with escapes, quotes as \x27). -/
def queryStr (q : Query) : String :=
  "\x7b\x27origin\x27: \x27" ++ q.origin ++
  "\x27, \x27destination\x27: \x27" ++ q.destination ++
  "\x27, \x27departure_date\x27: \x27" ++ q.departure_date ++
  "\x27, \x27return_date\x27: \x27" ++ q.return_date ++
  "\x27, \x27days\x27: " ++ toString q.days ++
  ", \x27people\x27: " ++ toString q.people ++
  ", \x27" ++ "budget" ++ "\x27: " ++ toString q.budget ++
  ", \x27travel_style\x27: \x27" ++ q.travel_style ++
  "\x27, \x27preferences\x27: \x7b\x27location\x27: \x27central location preferred\x27, \x27room_quality\x27: \x27high\x27, \x27service\x27: \x27friendly staff\x27\x7d\x7d"

/-- Style analysis of a full request: user_text = str(query).lower(). -/
def analyze_query (q : Query) : StyleAnalysis :=
  analyze_travel_style (lowerStr (queryStr q)) q.people q.budget

theorem bestOf_cons (x y : String × List String) (t : List (String × List String)) :
    bestOf x (y :: t) = bestOf (if x.2.length < y.2.length then y else x) t := rfl

theorem bestOf_mem (x : String × List String) (xs : List (String × List String)) :
    bestOf x xs = x ∨ bestOf x xs ∈ xs := by
  induction xs generalizing x with
  | nil => exact Or.inl rfl
  | cons y t ih =>
    rw [bestOf_cons]
    by_cases c : x.2.length < y.2.length
    · rw [if_pos c]
      rcases ih y with h | h
      · right; rw [h]; exact List.mem_cons_self _ _
      · right; exact List.mem_cons_of_mem _ h
    · rw [if_neg c]
      rcases ih x with h | h
      · left; exact h
      · right; exact List.mem_cons_of_mem _ h

theorem le_bestOf_init (x : String × List String) (xs : List (String × List String)) :
    x.2.length ≤ (bestOf x xs).2.length := by
  induction xs generalizing x with
  | nil => exact le_refl _
  | cons y t ih =>
    rw [bestOf_cons]
    by_cases c : x.2.length < y.2.length
    · rw [if_pos c]; exact le_trans (le_of_lt c) (ih y)
    · rw [if_neg c]; exact ih x

theorem le_bestOf_mem (x : String × List String) (xs : List (String × List String)) :
    ∀ z ∈ xs, z.2.length ≤ (bestOf x xs).2.length := by
  induction xs generalizing x with
  | nil => intro z hz; cases hz
  | cons y t ih =>
    intro z hz
    rw [bestOf_cons]
    rcases List.mem_cons.mp hz with h | h
    · rw [h]
      refine le_trans ?_ (le_bestOf_init _ t)
      by_cases c : x.2.length < y.2.length
      · rw [if_pos c]
      · rw [if_neg c]; exact le_of_not_lt c
    · exact ih (if x.2.length < y.2.length then y else x) z h

theorem le_maxItem (scores : List (String × List String)) (z : String × List String)
    (hz : z ∈ scores) : z.2.length ≤ (maxItem scores).2.length := by
  cases scores with
  | nil => cases hz
  | cons a l =>
    rcases List.mem_cons.mp hz with h | h
    · subst h; exact le_bestOf_init _ _
    · exact le_bestOf_mem _ _ z h

theorem maxItem_mem (scores : List (String × List String)) (h : scores ≠ []) :
    maxItem scores ∈ scores := by
  cases scores with
  | nil => exact absurd rfl h
  | cons a l =>
    rcases bestOf_mem a l with h1 | h1
    · rw [maxItem, h1]; exact List.mem_cons_self _ _
    · exact List.mem_cons_of_mem _ h1

theorem lowerStr_toList (s : String) :
    (lowerStr s).toList = s.data.map Char.toLower := rfl

theorem budget_isSub (q : Query) :
    isSub "budget".toList (lowerStr (queryStr q)).toList = true := by
  rw [isSub_iff, lowerStr_toList]
  have h1 : "budget".toList <:+: (queryStr q).data := by
    refine ⟨("\x7b\x27origin\x27: \x27".data ++ q.origin.data ++
      "\x27, \x27destination\x27: \x27".data ++ q.destination.data ++
      "\x27, \x27departure_date\x27: \x27".data ++ q.departure_date.data ++
      "\x27, \x27return_date\x27: \x27".data ++ q.return_date.data ++
      "\x27, \x27days\x27: ".data ++ (toString q.days).data ++
      ", \x27people\x27: ".data ++ (toString q.people).data ++ ", \x27".data),
      ("\x27: ".data ++ (toString q.budget).data ++
      ", \x27travel_style\x27: \x27".data ++ q.travel_style.data ++
      "\x27, \x27preferences\x27: \x7b\x27location\x27: \x27central location preferred\x27, \x27room_quality\x27: \x27high\x27, \x27service\x27: \x27friendly staff\x27\x7d\x7d".data), ?_⟩
    show _ = (queryStr q).data
    simp [queryStr, String.data_append, List.append_assoc, String.toList]
  have h2 := h1.map Char.toLower
  have h3 : "budget".toList.map Char.toLower = "budget".toList := by decide
  rwa [h3] at h2

def scenarioAQuery : Query :=
  ⟨"Seoul", "Tokyo, Japan", "2025-11-10", "2025-11-13", 4, 2, 2000000, ""⟩

/-- C6 counterexample: the Scenario A request (people = 2, budget = 2,000,000,
no user-supplied style keywords) does NOT classify as cultural with an empty
matched list: the stringified query dict always contains the key name
"budget", which is a backpacker keyword, so the request scores backpacker with
confidence 1 and matched list ["budget"], and the zero-score fallback never
fires. -/
theorem c6_scenario_a_counterexample :
    (analyze_query scenarioAQuery).primary_style = "backpacker" ∧
    (analyze_query scenarioAQuery).confidence = 1 ∧
    (analyze_query scenarioAQuery).matched_keywords = ["budget"] ∧
    ¬((analyze_query scenarioAQuery).primary_style = "cultural" ∧
      (analyze_query scenarioAQuery).matched_keywords = []) := by
  refine ⟨by decide, by decide, by decide, by decide⟩

theorem fallback_pick_mem (p b : ℤ) : fallback_pick p b ∈ sixStyles := by
  unfold fallback_pick
  by_cases h1 : 3 ≤ p
  · rw [if_pos h1]; decide
  · rw [if_neg h1]
    by_cases h2 : 3000000 ≤ b
    · rw [if_pos h2]; decide
    · rw [if_neg h2]
      by_cases h3 : b ≤ 1000000
      · rw [if_pos h3]; decide
      · rw [if_neg h3]; decide

theorem analyze_confidence_main_path (u : String) (p b : ℤ)
    (h0 : ¬ (maxItem (styleScores u)).2.length = 0) :
    (analyze_travel_style u p b).confidence = (maxItem (styleScores u)).2.length := by
  rw [analyze_travel_style, if_neg h0]

/-- C6 (amended): style classification is a total deterministic function whose
primary style is always one of the six fixed categories; when the maximum
keyword score is zero it applies the fallback in the order people ≥ 3 →
family, budget ≥ 3,000,000 → luxury, budget ≤ 1,000,000 → backpacker, else
cultural, with an empty matched-keyword list.  However, for an actual request
dict the zero-score case never arises: the stringification of the query always
contains the key name "budget", a backpacker keyword, so the confidence is at
least 1 (and Scenario A classifies as backpacker, not cultural). -/
theorem c6_style_classification (u : String) (p b : ℤ) (q : Query) :
    (analyze_travel_style u p b).primary_style ∈ sixStyles ∧
    ((maxItem (styleScores u)).2.length = 0 →
      (analyze_travel_style u p b).primary_style = fallback_pick p b ∧
      (analyze_travel_style u p b).matched_keywords = []) ∧
    1 ≤ (analyze_query q).confidence := by
  refine ⟨?_, ?_, ?_⟩
  · by_cases h0 : (maxItem (styleScores u)).2.length = 0
    · rw [analyze_travel_style, if_pos h0]; exact fallback_pick_mem p b
    · rw [analyze_travel_style, if_neg h0]
      have hne : styleScores u ≠ [] := by simp [styleScores, travel_styles]
      have hmm := maxItem_mem _ hne
      rw [styleScores] at hmm
      obtain ⟨s, hs, hfs⟩ := List.mem_map.mp hmm
      show (maxItem (styleScores u)).1 ∈ sixStyles
      rw [styleScores, ← hfs]
      have hm : s.1 ∈ travel_styles.map (fun t => t.1) := List.mem_map_of_mem _ hs
      have he : travel_styles.map (fun t : String × List String => t.1) = sixStyles := by decide
      rw [he] at hm
      exact hm
  · intro h0
    rw [analyze_travel_style, if_pos h0]
    refine ⟨rfl, ?_⟩
    cases hfind : (styleScores u).find? (fun s => s.1 == fallback_pick p b) with
    | none => simp [hfind]
    | some e =>
      have he : e ∈ styleScores u := List.mem_of_find?_eq_some hfind
      have hle := le_maxItem _ _ he
      rw [h0] at hle
      have h2 : e.2 = [] := List.length_eq_zero.mp (Nat.le_zero.mp hle)
      simp [hfind, h2]
  · have hkw : ("backpacker",
        ["backpacker", "budget", "hostel", "cheap", "백패커", "배낭여행", "저렴"])
        ∈ travel_styles := by decide
    have hmem : ("backpacker",
        ["backpacker", "budget", "hostel", "cheap", "백패커", "배낭여행", "저렴"].filter
          (fun k => isSub k.toList (lowerStr (queryStr q)).toList))
        ∈ styleScores (lowerStr (queryStr q)) := by
      rw [styleScores]
      exact List.mem_map_of_mem _ hkw
    have hbud : "budget" ∈
        (["backpacker", "budget", "hostel", "cheap", "백패커", "배낭여행", "저렴"].filter
          (fun k => isSub k.toList (lowerStr (queryStr q)).toList)) := by
      rw [List.mem_filter]
      exact ⟨by decide, budget_isSub q⟩
    generalize hF : (["backpacker", "budget", "hostel", "cheap", "백패커", "배낭여행", "저렴"].filter
          (fun k => isSub k.toList (lowerStr (queryStr q)).toList)) = F at hbud hmem
    have hpos : 1 ≤ (("backpacker", F) : String × List String).2.length :=
      List.length_pos.mpr (List.ne_nil_of_mem hbud)
    have hle := le_maxItem (styleScores (lowerStr (queryStr q))) _ hmem
    have h1 : 1 ≤ (maxItem (styleScores (lowerStr (queryStr q)))).2.length :=
      le_trans hpos hle
    have h0 : ¬ (maxItem (styleScores (lowerStr (queryStr q)))).2.length = 0 := by omega
    have hc := analyze_confidence_main_path (lowerStr (queryStr q)) q.people q.budget h0
    rw [analyze_query, hc]
    exact h1

/-- C6 witness: a keyword-free text with people = 2 and budget = 2,000,000
falls back to cultural with an empty matched list, and the Scenario A request
has confidence at least 1. -/
theorem c6_style_classification_witness :
    (analyze_travel_style "hello" 2 2000000).primary_style = "cultural" ∧
    (analyze_travel_style "hello" 2 2000000).matched_keywords = [] ∧
    1 ≤ (analyze_query scenarioAQuery).confidence := by
  obtain ⟨-, h2, h3⟩ := c6_style_classification "hello" 2 2000000 scenarioAQuery
  have h := h2 (by decide)
  refine ⟨?_, h.2, h3⟩
  rw [h.1]; decide

-- ===============================================================
-- Weather step: src/mcp_server/server.py lines 150-190
-- ===============================================================

/-- One daily forecast entry.  A date string "YYYY-MM-DD" is modelled as a
natural through the order isomorphism between code-point order on such
strings and chronological order; the payload fields stand for the
temperature/description data carried along unchanged. -/
structure ForecastEntry where
  date : ℕ
  temp_min : ℤ
  temp_max : ℤ
  description : String
deriving DecidableEq, Repr

/-- One step of the deduplication loop of server.py lines 178-181: append the
new entry only when its date was not seen, tracking the set of seen dates. -/
def mergeStep (acc : List ForecastEntry × List ℕ) (nf : ForecastEntry) :
    List ForecastEntry × List ℕ :=
  if nf.date ∈ acc.2 then acc else (acc.1 ++ [nf], acc.2 ++ [nf.date])

/-- Merge of the original forecast with the supplementary one (server.py lines
175-184): deduplicate the new list against the dates already present, then
sort the result by date. -/
def mergeForecast (orig extra : List ForecastEntry) : List ForecastEntry :=
  ((extra.foldl mergeStep (orig, orig.map (fun f => f.date))).1).mergeSort
    (fun a b => decide (a.date ≤ b.date))

/-- The forecast-completion logic of server.py lines 155-186: when the trip is
longer than the forecast returned, issue exactly one supplementary plain
forecast request (its day-count argument is capped at 5 by the caller) and
merge; a failed supplementary request leaves the forecast unchanged.  Returns
the number of supplementary requests issued and the final forecast list. -/
def weatherStep (days_of_trip : ℕ) (orig : List ForecastEntry)
    (supplementary : Option (List ForecastEntry)) : ℕ × List ForecastEntry :=
  if 0 < days_of_trip ∧ orig.length < days_of_trip then
    match supplementary with
    | some nf => (1, mergeForecast orig nf)
    | none => (1, orig)
  else (0, orig)

theorem mergeFold_mem (extra : List ForecastEntry)
    (acc : List ForecastEntry × List ℕ) :
    ∀ e ∈ acc.1, e ∈ (extra.foldl mergeStep acc).1 := by
  induction extra generalizing acc with
  | nil => intro e he; exact he
  | cons nf t ih =>
    intro e he
    rw [List.foldl_cons]
    refine ih (mergeStep acc nf) e ?_
    rw [mergeStep]
    by_cases c : nf.date ∈ acc.2
    · rw [if_pos c]; exact he
    · rw [if_neg c]; exact List.mem_append_left _ he

theorem mergeFold_inv (extra : List ForecastEntry)
    (acc : List ForecastEntry × List ℕ)
    (h1 : acc.2 = acc.1.map (fun f => f.date)) (h2 : acc.2.Nodup) :
    (extra.foldl mergeStep acc).2
      = (extra.foldl mergeStep acc).1.map (fun f => f.date) ∧
    (extra.foldl mergeStep acc).2.Nodup := by
  induction extra generalizing acc with
  | nil => exact ⟨h1, h2⟩
  | cons nf t ih =>
    rw [List.foldl_cons]
    refine ih (mergeStep acc nf) ?_ ?_
    · rw [mergeStep]
      by_cases c : nf.date ∈ acc.2
      · rw [if_pos c]; exact h1
      · rw [if_neg c]
        show acc.2 ++ [nf.date] = (acc.1 ++ [nf]).map (fun f => f.date)
        rw [List.map_append, ← h1]
        rfl
    · rw [mergeStep]
      by_cases c : nf.date ∈ acc.2
      · rw [if_pos c]; exact h2
      · rw [if_neg c]
        show (acc.2 ++ [nf.date]).Nodup
        rw [List.nodup_append]
        exact ⟨h2, List.nodup_singleton _, by simpa using c⟩

/-- C7: when the first forecast is shorter than the trip length, exactly one
supplementary request is issued and the merged forecast has pairwise distinct
dates, is sorted chronologically, and retains every entry of the original
forecast (supplementary entries never replace an original entry for the same
date).  The hypothesis that the original forecast has pairwise distinct dates
is guaranteed by the weather tool, which groups its output by date. -/
theorem c7_weather_supplement_merge (d : ℕ) (orig extra : List ForecastEntry)
    (h1 : 0 < d) (h2 : orig.length < d)
    (h3 : (orig.map (fun f => f.date)).Nodup) :
    (weatherStep d orig (some extra)).1 = 1 ∧
    ((weatherStep d orig (some extra)).2.map (fun f => f.date)).Nodup ∧
    (weatherStep d orig (some extra)).2.Pairwise (fun a b => a.date ≤ b.date) ∧
    ∀ e ∈ orig, e ∈ (weatherStep d orig (some extra)).2 := by
  rw [weatherStep, if_pos ⟨h1, h2⟩]
  have hinv := mergeFold_inv extra (orig, orig.map (fun f => f.date)) rfl h3
  have hperm := List.mergeSort_perm
    (extra.foldl mergeStep (orig, orig.map (fun f => f.date))).1
    (fun a b => decide (a.date ≤ b.date))
  refine ⟨rfl, ?_, ?_, ?_⟩
  · show ((mergeForecast orig extra).map (fun f => f.date)).Nodup
    rw [mergeForecast]
    exact ((hperm.map (fun f => f.date)).nodup_iff).mpr (hinv.1 ▸ hinv.2)
  · show (mergeForecast orig extra).Pairwise (fun a b => a.date ≤ b.date)
    have hs := @List.sorted_mergeSort ForecastEntry
      (fun a b : ForecastEntry => decide (a.date ≤ b.date))
      (fun a b c hab hbc => by
        simp only [decide_eq_true_eq] at *
        omega)
      (fun a b => by
        simp only [Bool.or_eq_true, decide_eq_true_eq]
        omega)
      (extra.foldl mergeStep (orig, orig.map (fun f => f.date))).1
    rw [mergeForecast]
    exact hs.imp (fun h => by simpa using h)
  · intro e he
    show e ∈ mergeForecast orig extra
    rw [mergeForecast]
    exact hperm.mem_iff.mpr
      (mergeFold_mem extra (orig, orig.map (fun f => f.date)) e he)

def wOrig : List ForecastEntry := [⟨2, 1, 9, "sunny"⟩]

def wExtra : List ForecastEntry :=
  [⟨1, 0, 8, "cloudy"⟩, ⟨2, 2, 7, "rain"⟩, ⟨3, 1, 6, "sunny"⟩]

/-- C7 witness: concrete instance with a one-day forecast for a three-day
trip; the supplementary list overlaps on the second date. -/
theorem c7_weather_supplement_merge_witness :
    (weatherStep 3 wOrig (some wExtra)).1 = 1 ∧
    ((weatherStep 3 wOrig (some wExtra)).2.map (fun f => f.date)).Nodup ∧
    (weatherStep 3 wOrig (some wExtra)).2.Pairwise (fun a b => a.date ≤ b.date) ∧
    ∀ e ∈ wOrig, e ∈ (weatherStep 3 wOrig (some wExtra)).2 :=
  c7_weather_supplement_merge 3 wOrig wExtra (by decide) (by decide) (by decide)

-- ===============================================================
-- Raw provider data (flight_tool.py / hotel_tool.py result shapes)
-- ===============================================================

/-- One leg of a flight offer as parsed by flight_tool.py (_parse_itinerary):
airport codes and full ISO time strings for departure and arrival. -/
structure FlightLeg where
  dep_airport : String
  dep_time : String
  arr_airport : String
  arr_time : String
deriving DecidableEq, Repr

/-- One flight offer of a successful search_flights result.  price_total is a
float; outbound is always present for a real offer, inbound is None for a
one-way offer (flight_tool.py line 224). -/
structure RawFlight where
  validating_airline_codes : List String
  price_total : ℚ
  outbound : Option FlightLeg
  inbound : Option FlightLeg
  booking_url : Option String
deriving DecidableEq, Repr

/-- Price block of one hotel offer (hotel_tool.py lines 266-271).  Fields the
reconciliation reads with .get are Options; a present zero is falsy for the
`if v:` tests in app.py. -/
structure RawHotelPrice where
  total : Option ℚ
  base : Option ℚ
  per_night : Option ℚ
  currency : Option String
deriving DecidableEq, Repr

/-- One hotel offer of a successful search_hotels result. -/
structure RawHotel where
  name : Option String
  address : Option String
  rating : Option String
  price : RawHotelPrice
  booking_url : Option String
deriving DecidableEq, Repr

-- ===============================================================
-- MCP server command log: src/mcp_server/server.py lines 13-63
-- ===============================================================

/-- One CommandRecord of the audit log (send_command, lines 37-46).  The
params dict and wall-clock timestamps are not modelled. -/
structure Cmd where
  id : ℕ
  fromAgent : String
  toAgent : String
  command : String
  status : String
  result : Option String
deriving DecidableEq, Repr

/-- The mutable MCPServer state relevant to the audit log: the instance-level
command_history list (server.py line 16). -/
structure ServerState where
  command_history : List Cmd
deriving DecidableEq, Repr

/-- MCPServer.send_command: append a pending command with id equal to the
current history length plus one, and return it. -/
def send_command (s : ServerState) (fa ta c : String) : ServerState × Cmd :=
  (⟨s.command_history ++
      [⟨s.command_history.length + 1, fa, ta, c, "pending", none⟩]⟩,
   ⟨s.command_history.length + 1, fa, ta, c, "pending", none⟩)

/-- The loop body of MCPServer.complete_command: update the first command
with the given id and leave the rest unchanged. -/
def complete_update (cid : ℕ) (st : String) (res : Option String) :
    List Cmd → List Cmd
  | [] => []
  | c :: t =>
    if c.id = cid then ⟨c.id, c.fromAgent, c.toAgent, c.command, st, res⟩ :: t
    else c :: complete_update cid st res t

/-- MCPServer.complete_command (lines 55-63). -/
def complete_command (s : ServerState) (cid : ℕ) (st : String)
    (res : Option String) : ServerState :=
  ⟨complete_update cid st res s.command_history⟩

/-- Well-formed audit log: the command ids are exactly 1, 2, ..., n in
positional order (the invariant maintained by send_command). -/
def wfHistory (s : ServerState) : Prop :=
  s.command_history.map (fun c => c.id)
    = List.range' 1 s.command_history.length

theorem complete_update_map_id (cid : ℕ) (st : String) (res : Option String)
    (l : List Cmd) :
    (complete_update cid st res l).map (fun c => c.id) = l.map (fun c => c.id) := by
  induction l with
  | nil => rfl
  | cons c t ih =>
    rw [complete_update]
    by_cases h : c.id = cid
    · rw [if_pos h]; rfl
    · rw [if_neg h, List.map_cons, List.map_cons, ih]

theorem complete_update_length (cid : ℕ) (st : String) (res : Option String)
    (l : List Cmd) : (complete_update cid st res l).length = l.length := by
  have h := complete_update_map_id cid st res l
  have h1 := congrArg List.length h
  simpa using h1

theorem complete_update_fresh (cid : ℕ) (st : String) (res : Option String)
    (l : List Cmd) (c0 : Cmd) (hfresh : ∀ c ∈ l, c.id ≠ cid)
    (hc0 : c0.id = cid) :
    complete_update cid st res (l ++ [c0])
      = l ++ [⟨c0.id, c0.fromAgent, c0.toAgent, c0.command, st, res⟩] := by
  induction l with
  | nil => simp [complete_update, hc0]
  | cons c t ih =>
    have hne : c.id ≠ cid := hfresh c (List.mem_cons_self _ _)
    rw [List.cons_append, complete_update, if_neg hne,
      ih (fun x hx => hfresh x (List.mem_cons_of_mem _ hx))]
    rfl

theorem wf_ids_le (s : ServerState) (hwf : wfHistory s) :
    ∀ c ∈ s.command_history, c.id ≤ s.command_history.length := by
  intro c hc
  have h1 : c.id ∈ s.command_history.map (fun c => c.id) :=
    List.mem_map_of_mem _ hc
  rw [hwf] at h1
  have h2 := List.mem_range'_1.mp h1
  omega

theorem send_command_wf (s : ServerState) (fa ta c : String)
    (hwf : wfHistory s) : wfHistory (send_command s fa ta c).1 := by
  simp only [wfHistory, send_command]
  rw [List.map_append, List.length_append, hwf]
  simp only [List.map_cons, List.map_nil, List.length_cons, List.length_nil]
  rw [List.range'_concat]
  norm_num [Nat.add_comm]

theorem complete_command_wf (s : ServerState) (cid : ℕ) (st : String)
    (res : Option String) (hwf : wfHistory s) :
    wfHistory (complete_command s cid st res) := by
  show (complete_update cid st res s.command_history).map (fun c => c.id)
    = List.range' 1 (complete_update cid st res s.command_history).length
  rw [complete_update_map_id, complete_update_length, hwf]

-- ===============================================================
-- Refinement fallback: src/mcp_server/server.py lines 386-426
-- ===============================================================

/-- Command 3 of process_travel_request: send REQUEST_REFINEMENT, call the
model, then either parse the final itinerary (status completed) or fall back
to the initial itinerary (status completed_with_warning).  The parsed
argument is the outcome of json.loads on the model output; the itinerary
payload type is abstract since the fallback copies the object unchanged. -/
def refinementStep {α : Type} (s : ServerState) (initial : α)
    (parsed : Option α) : ServerState × α :=
  match parsed with
  | some fin =>
    (complete_command (send_command s "reviewer" "planner" "REQUEST_REFINEMENT").1
      (send_command s "reviewer" "planner" "REQUEST_REFINEMENT").2.id
      "completed" (some "Itinerary refined"), fin)
  | none =>
    (complete_command (send_command s "reviewer" "planner" "REQUEST_REFINEMENT").1
      (send_command s "reviewer" "planner" "REQUEST_REFINEMENT").2.id
      "completed_with_warning" (some "Used initial itinerary"), initial)

theorem complete_send_history (s : ServerState) (fa ta c : String)
    (st : String) (res : Option String) (hwf : wfHistory s) :
    (complete_command (send_command s fa ta c).1
        (send_command s fa ta c).2.id st res).command_history
      = s.command_history ++
        [⟨s.command_history.length + 1, fa, ta, c, st, res⟩] := by
  show complete_update (s.command_history.length + 1) st res
      (s.command_history ++ [⟨s.command_history.length + 1, fa, ta, c, "pending", none⟩])
    = _
  rw [complete_update_fresh]
  · intro x hx
    have := wf_ids_le s hwf x hx
    omega
  · rfl

/-- C1: if the refinement model output fails to parse, the returned final
itinerary is exactly the draft itinerary object and the refinement command is
recorded with status completed_with_warning (not failed); if it parses, the
final itinerary is the parsed output and the status is completed. -/
theorem c1_refinement_fallback {α : Type} (s : ServerState) (initial : α)
    (parsed : Option α) (hwf : wfHistory s) :
    (parsed = none →
      (refinementStep s initial parsed).2 = initial ∧
      (refinementStep s initial parsed).1.command_history.getLast?
        = some ⟨s.command_history.length + 1, "reviewer", "planner",
            "REQUEST_REFINEMENT", "completed_with_warning",
            some "Used initial itinerary"⟩ ∧
      "completed_with_warning" ≠ "failed") ∧
    (∀ j, parsed = some j →
      (refinementStep s initial parsed).2 = j ∧
      (refinementStep s initial parsed).1.command_history.getLast?
        = some ⟨s.command_history.length + 1, "reviewer", "planner",
            "REQUEST_REFINEMENT", "completed", some "Itinerary refined"⟩) := by
  constructor
  · intro hn
    subst hn
    refine ⟨rfl, ?_, by decide⟩
    show (complete_command (send_command s "reviewer" "planner" "REQUEST_REFINEMENT").1
      (send_command s "reviewer" "planner" "REQUEST_REFINEMENT").2.id
      "completed_with_warning" (some "Used initial itinerary")).command_history.getLast? = _
    rw [complete_send_history s _ _ _ _ _ hwf, List.getLast?_concat]
  · intro j hj
    subst hj
    refine ⟨rfl, ?_⟩
    show (complete_command (send_command s "reviewer" "planner" "REQUEST_REFINEMENT").1
      (send_command s "reviewer" "planner" "REQUEST_REFINEMENT").2.id
      "completed" (some "Itinerary refined")).command_history.getLast? = _
    rw [complete_send_history s _ _ _ _ _ hwf, List.getLast?_concat]

/-- C1 witness: on the empty server with a concrete draft, a parse failure
returns the draft with a completed_with_warning command, and a parse success
returns the parsed value with a completed command. -/
theorem c1_refinement_fallback_witness :
    (refinementStep ⟨[]⟩ (37 : ℕ) none).2 = 37 ∧
    (refinementStep ⟨[]⟩ (37 : ℕ) none).1.command_history.getLast?
      = some ⟨1, "reviewer", "planner", "REQUEST_REFINEMENT",
          "completed_with_warning", some "Used initial itinerary"⟩ ∧
    (refinementStep ⟨[]⟩ (37 : ℕ) (some 99)).2 = 99 := by
  have h1 := (c1_refinement_fallback ⟨[]⟩ (37 : ℕ) none rfl).1 rfl
  have h2 := (c1_refinement_fallback ⟨[]⟩ (37 : ℕ) (some 99) rfl).2 99 rfl
  exact ⟨h1.1, h1.2.1, h2.1⟩

-- ===============================================================
-- Cross-request command accumulation: server.py lines 13-17, 29-53, 431-436
-- ===============================================================

/-- One orchestrator step as recorded in the audit log: a send_command
followed by a complete_command with the final status of that step.  All eight
steps of process_travel_request have this shape. -/
structure StepSpec where
  fromAgent : String
  toAgent : String
  command : String
  status : String
  result : Option String
deriving DecidableEq, Repr

/-- Execute one audit-logged step. -/
def runStep (s : ServerState) (sp : StepSpec) : ServerState :=
  complete_command (send_command s sp.fromAgent sp.toAgent sp.command).1
    (send_command s sp.fromAgent sp.toAgent sp.command).2.id sp.status sp.result

/-- The per-request collaboration log (only the mcp_commands field is
relevant to the audit-log claims). -/
structure CollaborationLog where
  mcp_commands : List Cmd
deriving DecidableEq, Repr

/-- Audit-log shape of MCPServer.process_travel_request: execute the steps of
one request against the instance-level command history and return the
collaboration log, whose mcp_commands is the whole accumulated history of the
server instance (server.py line 432 assigns self.command_history, not a
per-request slice). -/
def process_travel_request (s : ServerState) (steps : List StepSpec) :
    ServerState × CollaborationLog :=
  (steps.foldl runStep s, ⟨(steps.foldl runStep s).command_history⟩)

theorem runStep_wf (s : ServerState) (sp : StepSpec) (hwf : wfHistory s) :
    wfHistory (runStep s sp) :=
  complete_command_wf _ _ _ _ (send_command_wf s _ _ _ hwf)

theorem runStep_history (s : ServerState) (sp : StepSpec) (hwf : wfHistory s) :
    (runStep s sp).command_history = s.command_history ++
      [⟨s.command_history.length + 1, sp.fromAgent, sp.toAgent, sp.command,
        sp.status, sp.result⟩] :=
  complete_send_history s _ _ _ _ _ hwf

theorem foldl_runStep_wf (steps : List StepSpec) (s : ServerState)
    (hwf : wfHistory s) : wfHistory (steps.foldl runStep s) := by
  induction steps generalizing s with
  | nil => exact hwf
  | cons sp t ih =>
    rw [List.foldl_cons]
    exact ih _ (runStep_wf s sp hwf)

theorem foldl_runStep_extends (steps : List StepSpec) (s : ServerState)
    (hwf : wfHistory s) :
    ∃ tail, (steps.foldl runStep s).command_history
      = s.command_history ++ tail := by
  induction steps generalizing s with
  | nil => exact ⟨[], (List.append_nil _).symm⟩
  | cons sp t ih =>
    rw [List.foldl_cons]
    obtain ⟨tail, htail⟩ := ih (runStep s sp) (runStep_wf s sp hwf)
    refine ⟨[⟨s.command_history.length + 1, sp.fromAgent, sp.toAgent,
      sp.command, sp.status, sp.result⟩] ++ tail, ?_⟩
    rw [htail, runStep_history s sp hwf, List.append_assoc]

/-- C10: the command history lives on the MCPServer instance, not on the
request: across two successive process_travel_request calls on the same
server the ids stay consecutive (1..n over the whole accumulated history),
the second call appends to the history of the first, and each returned
collaboration log exposes the entire accumulated history, so the second log
contains every command record of the first request. -/
theorem c10_command_history_accumulates (s : ServerState)
    (steps1 steps2 : List StepSpec) (hwf : wfHistory s) :
    (process_travel_request s steps1).2.mcp_commands
      = (process_travel_request s steps1).1.command_history ∧
    (process_travel_request (process_travel_request s steps1).1 steps2).2.mcp_commands
      = (process_travel_request (process_travel_request s steps1).1 steps2).1.command_history ∧
    wfHistory (process_travel_request (process_travel_request s steps1).1 steps2).1 ∧
    (∃ tail, (process_travel_request (process_travel_request s steps1).1 steps2).1.command_history
      = (process_travel_request s steps1).1.command_history ++ tail) ∧
    (∀ c ∈ (process_travel_request s steps1).2.mcp_commands,
      c ∈ (process_travel_request (process_travel_request s steps1).1 steps2).2.mcp_commands) := by
  have hwf1 : wfHistory (process_travel_request s steps1).1 :=
    foldl_runStep_wf steps1 s hwf
  have hext := foldl_runStep_extends steps2 (process_travel_request s steps1).1 hwf1
  refine ⟨rfl, rfl, foldl_runStep_wf steps2 _ hwf1, hext, ?_⟩
  intro c hc
  obtain ⟨tail, htail⟩ := hext
  show c ∈ (steps2.foldl runStep (process_travel_request s steps1).1).command_history
  rw [htail]
  exact List.mem_append_left _ hc

/-- C10 witness: two one-step requests on a fresh server; the second log
contains the first request command with id 1 and the new command with id 2. -/
theorem c10_command_history_accumulates_witness :
    (process_travel_request (process_travel_request ⟨[]⟩
        [⟨"system", "weather_api", "GET_WEATHER_INFO", "completed", none⟩]).1
        [⟨"user", "planner", "CREATE_ITINERARY", "completed", none⟩]).2.mcp_commands
      = [⟨1, "system", "weather_api", "GET_WEATHER_INFO", "completed", none⟩,
         ⟨2, "user", "planner", "CREATE_ITINERARY", "completed", none⟩] ∧
    wfHistory (process_travel_request (process_travel_request ⟨[]⟩
        [⟨"system", "weather_api", "GET_WEATHER_INFO", "completed", none⟩]).1
        [⟨"user", "planner", "CREATE_ITINERARY", "completed", none⟩]).1 := by
  have h := c10_command_history_accumulates ⟨[]⟩
    [⟨"system", "weather_api", "GET_WEATHER_INFO", "completed", none⟩]
    [⟨"user", "planner", "CREATE_ITINERARY", "completed", none⟩] rfl
  exact ⟨by decide, h.2.2.1⟩

-- ===============================================================
-- Reviewer agent and hotel-analysis step:
-- src/agents/reviewer.py lines 92-168, src/mcp_server/server.py lines 342-378
-- ===============================================================

/-- One entry of the recommendations list the reviewer model returns. -/
structure RecEntry where
  hotel : String
  reason : String
deriving DecidableEq, Repr

/-- Result dict of ReviewerAgent.process: either an error dict (status error,
no analysis/recommendations keys) or a success dict. -/
inductive ReviewerResponse where
  | rerror (msg : String)
  | rsuccess (analysis : List String) (recommendations : List RecEntry)
deriving DecidableEq, Repr

/-- ReviewerAgent.process: an empty hotel list yields the no-hotels error
before any retrieval; otherwise, zero retrieved reviews yield the no-reviews
error; otherwise the model output either parses (success) or not (parse
error).  The retrieved review list and the parsed model output are external
inputs. -/
def reviewer_process (hotels : List RawHotel) (reviews : List String)
    (llm : Option (List String × List RecEntry)) : ReviewerResponse :=
  if hotels.isEmpty then .rerror "No hotels to analyze"
  else if reviews.isEmpty then .rerror "No reviews found"
  else match llm with
    | some r => .rsuccess r.1 r.2
    | none => .rerror "Failed to parse GPT response"

/-- reviewer_response.get("analysis", []). -/
def analysisOf : ReviewerResponse → List String
  | .rerror _ => []
  | .rsuccess a _ => a

/-- reviewer_response.get("recommendations", []). -/
def recsOf : ReviewerResponse → List RecEntry
  | .rerror _ => []
  | .rsuccess _ r => r

/-- reviewer_response.get("recommendations", [{}])[0].get("hotel", "N/A")
(server.py line 371): on an error response the default [{}] yields "N/A"; on
a success response with an empty recommendations list the [0] raises. -/
def topPickOf : ReviewerResponse → Except String String
  | .rerror _ => .ok "N/A"
  | .rsuccess _ [] => .error "IndexError"
  | .rsuccess _ (r :: _) => .ok r.hotel

/-- hotels_data.get("hotels", []) (server.py line 342): a failed or absent
hotel search contributes an empty dict, hence an empty list. -/
def hotelsOf : Option (List RawHotel) → List RawHotel
  | some l => l
  | none => []

/-- The hotel analysis dict assembled at server.py lines 368-372. -/
structure HotelAnalysis where
  analysis : List String
  recommendations : List RecEntry
  top_pick : String
deriving DecidableEq, Repr

/-- Command 2 of process_travel_request (server.py lines 342-378): send
ANALYZE_HOTELS, call the reviewer unconditionally with whatever hotel list the
search produced (empty when the search failed), assemble the analysis dict and
mark the command completed.  The error value models the uncaught IndexError of
line 371 aborting the request (the pending command record is then never
completed).  The returned tuple carries the state, the hotel list passed to
the reviewer, the reviewer response, and the assembled analysis. -/
def analyzeHotelsStep (s : ServerState) (hotels_data : Option (List RawHotel))
    (reviews : List String) (llm : Option (List String × List RecEntry)) :
    Except String (ServerState × List RawHotel × ReviewerResponse × HotelAnalysis) :=
  match topPickOf (reviewer_process (hotelsOf hotels_data) reviews llm) with
  | .error e => .error e
  | .ok tp =>
    .ok (complete_command (send_command s "planner" "reviewer" "ANALYZE_HOTELS").1
          (send_command s "planner" "reviewer" "ANALYZE_HOTELS").2.id "completed"
          (some (toString (recsOf (reviewer_process (hotelsOf hotels_data) reviews llm)).length
            ++ " hotels analyzed")),
        hotelsOf hotels_data,
        reviewer_process (hotelsOf hotels_data) reviews llm,
        ⟨analysisOf (reviewer_process (hotelsOf hotels_data) reviews llm),
         recsOf (reviewer_process (hotelsOf hotels_data) reviews llm), tp⟩)

/-- C2 counterexample: when the hotel search fails (hotels_data absent), the
orchestrator still invokes the reviewer, with an empty hotel list, and the
reviewer returns its no-hotels error — the step is not skipped and the
no-hotels error path is triggered, then swallowed: the command completes with
"0 hotels analyzed" and an empty analysis with top pick "N/A". -/
theorem c2_reviewer_skip_counterexample :
    reviewer_process (hotelsOf none) [] none
      = ReviewerResponse.rerror "No hotels to analyze" ∧
    analyzeHotelsStep ⟨[]⟩ none [] none
      = .ok (⟨[⟨1, "planner", "reviewer", "ANALYZE_HOTELS", "completed",
            some "0 hotels analyzed"⟩]⟩,
          [], ReviewerResponse.rerror "No hotels to analyze", ⟨[], [], "N/A"⟩) := by
  constructor
  · rfl
  · rfl

/-- C2 (amended): the orchestrator branches on neither adapter presence nor
adapter success: whenever the hotel list extracted from the search result is
empty (failed search, absent adapter, or zero results), the reviewer is still
invoked with the empty list, returns the no-hotels error, and the orchestrator
proceeds, recording the ANALYZE_HOTELS command as completed with an empty
analysis and top pick "N/A". -/
theorem c2_reviewer_invoked_on_empty (s : ServerState)
    (hotels_data : Option (List RawHotel)) (reviews : List String)
    (llm : Option (List String × List RecEntry))
    (h : hotelsOf hotels_data = []) :
    analyzeHotelsStep s hotels_data reviews llm
      = .ok (complete_command (send_command s "planner" "reviewer" "ANALYZE_HOTELS").1
            (send_command s "planner" "reviewer" "ANALYZE_HOTELS").2.id "completed"
            (some "0 hotels analyzed"),
          [], ReviewerResponse.rerror "No hotels to analyze", ⟨[], [], "N/A"⟩) := by
  rw [analyzeHotelsStep, h]
  have hr : reviewer_process [] reviews llm
      = ReviewerResponse.rerror "No hotels to analyze" := rfl
  rw [hr]
  rfl

/-- C2 witness: a hotel search that succeeded with zero hotels also leads to
the reviewer being invoked and erroring. -/
theorem c2_reviewer_invoked_on_empty_witness :
    analyzeHotelsStep ⟨[]⟩ (some []) ["great room"] none
      = .ok (⟨[⟨1, "planner", "reviewer", "ANALYZE_HOTELS", "completed",
            some "0 hotels analyzed"⟩]⟩,
          [], ReviewerResponse.rerror "No hotels to analyze", ⟨[], [], "N/A"⟩) := by
  rw [c2_reviewer_invoked_on_empty ⟨[]⟩ (some []) ["great room"] none rfl]
  rfl

-- ===============================================================
-- Reconciliation pass: src/app.py, route /plan, lines 406-716
-- ===============================================================

/-- Transportation dict of one itinerary day (keys read by app.py; the photo
steps and key order are irrelevant).  cost is None for an absent or
non-numeric value, which the cost recompute skips. -/
structure Transportation where
  ttype : Option String
  details : Option String
  cost : Option ℚ
  airline : Option String
  flight_number : Option String
  booking_url : Option String
deriving DecidableEq, Repr

/-- Accommodation dict of one itinerary day; none at the Day level models an
absent or empty (falsy) dict. -/
structure Accommodation where
  name : Option String
  address : Option String
  atype : Option String
  estimated_cost : Option ℚ
  booking_url : Option String
deriving DecidableEq, Repr

structure Attraction where
  name : String
  estimated_cost : Option ℚ
deriving DecidableEq, Repr

structure Meal where
  mtype : String
  suggestion : String
deriving DecidableEq, Repr

/-- One per-day entry of the model-produced itinerary. -/
structure Day where
  transportation : Option Transportation
  accommodation : Option Accommodation
  attractions : List Attraction
  meals : List Meal
  daily_cost : Option ℚ
deriving DecidableEq, Repr

def dayDefault : Day := ⟨none, none, [], [], none⟩

/-- selected_flight dict of the model output, or the record the flight repair
writes.  The outbound/inbound summaries are modelled in their string form;
the dict form only changes the day-1 details text (app.py lines 609-632). -/
structure SelectedFlight where
  airline : Option String
  price : Option ℚ
  outbound : Option String
  inbound : Option String
  flight_number : Option String
  booking_url : Option String
deriving DecidableEq, Repr

def emptySelectedFlight : SelectedFlight := ⟨none, none, none, none, none, none⟩

/-- selected_hotel dict: either model output (possibly carrying a nested
price.total) or the normalized record the hotel repair writes (which has
estimated_cost and currency but no nested price).  The display-string fields
of the normalized record are omitted: nothing downstream reads them. -/
structure SelectedHotel where
  name : Option String
  address : Option String
  htype : Option String
  estimated_cost : Option ℚ
  per_night_cost : Option ℚ
  currency : Option String
  price_total : Option ℚ
  booking_url : Option String
deriving DecidableEq, Repr

def emptySelectedHotel : SelectedHotel :=
  ⟨none, none, none, none, none, none, none, none⟩

/-- The final itinerary document being reconciled.  days models
final_plan.get("days", 0); an absent itinerary is the empty list (both are
falsy for every test the code performs). -/
structure FinalPlan where
  destination : String
  days : Option ℕ
  selected_flight : Option SelectedFlight
  selected_hotel : Option SelectedHotel
  itinerary : List Day
deriving DecidableEq, Repr

structure Restaurant where
  name : String
deriving DecidableEq, Repr

/-- One place of the places_info payload with its nearby restaurants. -/
structure Place where
  name : String
  nearby_restaurants : List Restaurant
deriving DecidableEq, Repr

/-- Truthiness of an optional string (Python: None and "" are falsy). -/
def truthyS : Option String → Bool
  | some s => !s.isEmpty
  | none => false

/-- Truthiness of an optional number (Python: None and 0.0 are falsy). -/
def truthyQ : Option ℚ → Bool
  | some q => decide (q ≠ 0)
  | none => false

-- ---------------------------------------------------------------
-- Restaurant placeholder repair: app.py lines 447-483 (wrapped in try)
-- ---------------------------------------------------------------

/-- The (place name, restaurant name) pairs collected at lines 450-459. -/
def allRestaurants (places : List Place) : List (String × String) :=
  places.flatMap (fun p => p.nearby_restaurants.map (fun r => (p.name, r.name)))

/-- The placeholder patterns of lines 462-466. -/
def placeholder_patterns : List String :=
  ["레스토랑 A", "레스토랑 B", "레스토랑 C", "레스토랑 D",
   "Restaurant A", "Restaurant B", "Restaurant C", "Restaurant D",
   "레스토랑 ", "Restaurant "]

def isPlaceholder (s : String) : Bool :=
  placeholder_patterns.any (fun pat => isSub pat.toList s.toList)

/-- Replace one meal suggestion when it matches a placeholder pattern and a
real restaurant is still available, threading the restaurant index. -/
def replaceMeal (rests : List (String × String)) (idx : ℕ) (m : Meal) :
    ℕ × Meal :=
  if isPlaceholder m.suggestion then
    match rests[idx]? with
    | some r => (idx + 1, ⟨m.mtype, r.2 ++ " - 추천 메뉴 ( " ++ r.1 ++ " 근처 )"⟩)
    | none => (idx, m)
  else (idx, m)

def replaceMeals (rests : List (String × String)) (idx : ℕ) :
    List Meal → ℕ × List Meal
  | [] => (idx, [])
  | m :: t =>
    ((replaceMeals rests (replaceMeal rests idx m).1 t).1,
     (replaceMeal rests idx m).2 :: (replaceMeals rests (replaceMeal rests idx m).1 t).2)

def replaceDays (rests : List (String × String)) (idx : ℕ) :
    List Day → ℕ × List Day
  | [] => (idx, [])
  | d :: t =>
    ((replaceDays rests (replaceMeals rests idx d.meals).1 t).1,
     ⟨d.transportation, d.accommodation, d.attractions,
      (replaceMeals rests idx d.meals).2, d.daily_cost⟩ ::
      (replaceDays rests (replaceMeals rests idx d.meals).1 t).2)

/-- The restaurant placeholder repair (lines 447-483).  The surrounding
try/except is invisible here because every step of the loop is total. -/
def restaurantRepair (places_info : Option (List Place)) (plan : FinalPlan) :
    FinalPlan :=
  match places_info with
  | some (p :: ps) =>
    if plan.itinerary.isEmpty then plan
    else ⟨plan.destination, plan.days, plan.selected_flight, plan.selected_hotel,
          (replaceDays (allRestaurants (p :: ps)) 0 plan.itinerary).2⟩
  | _ => plan

-- ---------------------------------------------------------------
-- Flight repair: app.py lines 486-510 (not individually wrapped)
-- ---------------------------------------------------------------

/-- Python slice time[11:16] extracting HH:MM from an ISO datetime string. -/
def sliceHM (t : String) : String := ⟨(t.data.drop 11).take 5⟩

/-- The outbound/inbound summary string built at lines 505-506. -/
def legSummary (leg : FlightLeg) : String :=
  leg.dep_airport ++ " " ++ sliceHM leg.dep_time ++ " → " ++
  leg.arr_airport ++ " " ++ sliceHM leg.arr_time

/-- The flight repair (lines 486-510): when the flight search succeeded with
at least one offer and the model flight record is missing an outbound or
inbound summary, rebuild selected_flight from the top offer.  Reading the leg
fields of a one-way offer (inbound None, flight_tool.py line 224) raises an
uncaught TypeError, modelled as the error case. -/
def flightRepair (flights_data : Option (List RawFlight)) (plan : FinalPlan) :
    Except String FinalPlan :=
  match flights_data with
  | some (api :: _) =>
    if truthyS (plan.selected_flight.getD emptySelectedFlight).outbound &&
       truthyS (plan.selected_flight.getD emptySelectedFlight).inbound then
      .ok plan
    else
      match api.outbound, api.inbound with
      | some ob, some ib =>
        .ok ⟨plan.destination, plan.days,
          some ⟨some (String.intercalate ", " api.validating_airline_codes),
            some api.price_total, some (legSummary ob), some (legSummary ib),
            none, some (api.booking_url.getD "#")⟩,
          plan.selected_hotel, plan.itinerary⟩
      | _, _ => .error "TypeError"
  | _ => .ok plan

-- ---------------------------------------------------------------
-- Hotel repair: app.py lines 512-589 (not individually wrapped, total)
-- ---------------------------------------------------------------

/-- Source of the lodging-night count of lines 538-549: the hotel search
params may lack the dates (per-night stays 0), their parse may fail
(per-night falls back to the total), or the parsed stay length n is used. -/
inductive NightsSrc where
  | noDates
  | parseFail
  | nights (n : ℤ)
deriving DecidableEq, Repr

/-- hotel_total extraction (lines 519-528): first truthy of price.total and
price.base, else 0. -/
def hotelTotalOf (p : RawHotelPrice) : ℚ :=
  if truthyQ p.total then p.total.getD 0
  else if truthyQ p.base then p.base.getD 0
  else 0

/-- hotel_per_night extraction (lines 530-549). -/
def perNightOf (p : RawHotelPrice) (total : ℚ) (ns : NightsSrc) : ℚ :=
  if (if truthyQ p.per_night then p.per_night.getD 0 else 0) = 0 ∧ 0 < total then
    match ns with
    | .noDates => 0
    | .parseFail => total
    | .nights n => total / ((max n 1 : ℤ) : ℚ)
  else (if truthyQ p.per_night then p.per_night.getD 0 else 0)

/-- The normalized hotel record of lines 552-568 (display strings omitted). -/
def normalizedHotel (api : RawHotel) (total per_night : ℚ) : SelectedHotel :=
  ⟨some (api.name.getD "추천 호텔"),
   some (api.address.getD "주소 정보 없음"),
   some (match api.rating with
         | some r => if r = "N/A" then "호텔" else r ++ "성급 호텔"
         | none => "호텔"),
   some total, some per_night,
   some (api.price.currency.getD "KRW"),
   none,
   some (api.booking_url.getD "#")⟩

/-- Per-day accommodation synchronisation (lines 573-587): days whose
accommodation is absent/empty or already the "N/A" marker are skipped; the
others are overwritten with the normalized hotel at the per-night cost. -/
def syncAcc (nh : SelectedHotel) (per_night : ℚ) (d : Day) : Day :=
  match d.accommodation with
  | none => d
  | some acc =>
    if acc.name = some "N/A" then d
    else ⟨d.transportation,
          some ⟨nh.name, nh.address, nh.htype, some per_night, nh.booking_url⟩,
          d.attractions, d.meals, d.daily_cost⟩

/-- The hotel repair (lines 512-589): runs only when the hotel search
succeeded with at least one offer; overwrites selected_hotel and synchronises
every non-"N/A" day accommodation. -/
def hotelRepair (hotels_data : Option (List RawHotel)) (ns : NightsSrc)
    (plan : FinalPlan) : FinalPlan :=
  match hotels_data with
  | some (api :: _) =>
    ⟨plan.destination, plan.days, plan.selected_flight,
     some (normalizedHotel api (hotelTotalOf api.price)
       (perNightOf api.price (hotelTotalOf api.price) ns)),
     plan.itinerary.map (syncAcc
       (normalizedHotel api (hotelTotalOf api.price)
         (perNightOf api.price (hotelTotalOf api.price) ns))
       (perNightOf api.price (hotelTotalOf api.price) ns))⟩
  | _ => plan

-- ---------------------------------------------------------------
-- Day-1 / last-day transport injection and daily-cost recompute:
-- app.py lines 591-716 (not individually wrapped)
-- ---------------------------------------------------------------

/-- The "N/A" accommodation marker written on the return day (lines
664-669). -/
def naMarker : Accommodation := ⟨some "N/A", some "N/A", some "N/A", some 0, none⟩

/-- Line 598: flights_data.get("flights", [{}])[0].get("booking_url", "#").
A failed search has no flights key (default [{}] gives "#"); a successful
search with an empty list raises an uncaught IndexError. -/
def bookingUrl0 (flights_data : Option (List RawFlight)) : Except String String :=
  match flights_data with
  | none => .ok "#"
  | some [] => .error "IndexError"
  | some (f :: _) => .ok (f.booking_url.getD "#")

/-- Day-1 outbound injection (lines 601-647): when the selected flight has a
truthy outbound summary, read day 1's transportation dict (an uncaught
KeyError when absent) and overwrite it when its type is 비행기. -/
def day1Inject (sf : SelectedFlight) (it : List Day) : Except String (List Day) :=
  match it with
  | [] => .ok it
  | d0 :: _ =>
    if truthyS sf.outbound then
      match d0.transportation with
      | none => .error "KeyError"
      | some t0 =>
        if t0.ttype = some "비행기" then
          .ok (it.set 0 ⟨some ⟨some "비행기",
            some ("출국편: " ++ sf.outbound.getD ""),
            some (t0.cost.getD (sf.price.getD 0)),
            sf.airline, some (sf.flight_number.getD "N/A"), sf.booking_url⟩,
            d0.accommodation, d0.attractions, d0.meals, d0.daily_cost⟩)
        else .ok it
    else .ok it

/-- Python str.strip() restricted to spaces. -/
def stripSpaces (l : List Char) : List Char :=
  ((l.dropWhile (fun c => c = ' ')).reverse.dropWhile (fun c => c = ' ')).reverse

/-- destination.split(",")[0].strip() (line 673). -/
def splitCity (s : String) : String :=
  ⟨stripSpaces (s.data.takeWhile (fun c => c ≠ ','))⟩

/-- The Google-search deep link of lines 674-675 (percent-encoding of the
query is abstracted to plain concatenation; no claim reads the URL text). -/
def hotelLink (n city : String) : String :=
  "https://www.google.com/search?q=" ++ n ++ " " ++ city ++
    " hotel booking&hl=ko&ibp=htl"

/-- Per-day booking-URL spread of lines 679-681: only days whose
accommodation name equals the selected hotel name get the link. -/
def setBookingUrl (hname url : String) (day : Day) : Day :=
  match day.accommodation with
  | some acc =>
    if acc.name = some hname then
      ⟨day.transportation,
       some ⟨acc.name, acc.address, acc.atype, acc.estimated_cost, some url⟩,
       day.attractions, day.meals, day.daily_cost⟩
    else day
  | none => day

/-- The hotel-link injection of lines 670-681, run inside the last-day
branch: when the selected hotel has a truthy name, refresh its booking URL
and spread it over matching days. -/
def hotelLinkSpread (plan : FinalPlan) : FinalPlan :=
  match plan.selected_hotel with
  | some sh =>
    match sh.name with
    | some n =>
      if n.isEmpty then plan
      else
        ⟨plan.destination, plan.days, plan.selected_flight,
         some ⟨sh.name, sh.address, sh.htype, sh.estimated_cost,
           sh.per_night_cost, sh.currency, sh.price_total,
           some (hotelLink n (splitCity plan.destination))⟩,
         plan.itinerary.map
           (setBookingUrl n (hotelLink n (splitCity plan.destination)))⟩
    | none => plan
  | none => plan

/-- Last-day inbound injection (lines 649-685): when the itinerary reaches
index days-1 and the selected flight has a truthy inbound summary, overwrite
that day's transportation with the inbound flight (an uncaught KeyError when
the flight record has no airline key), null its accommodation to the "N/A"
marker, and spread the hotel booking link. -/
def lastDayInject (sf : SelectedFlight) (d : ℕ) (plan : FinalPlan) :
    Except String FinalPlan :=
  if d - 1 < plan.itinerary.length ∧ truthyS sf.inbound = true then
    match sf.airline with
    | none => .error "KeyError"
    | some al =>
      .ok (hotelLinkSpread
        ⟨plan.destination, plan.days, plan.selected_flight, plan.selected_hotel,
         plan.itinerary.set (d - 1)
           ⟨some ⟨some "비행기",
              some ("귀국편: " ++ sf.inbound.getD ""),
              some (match (plan.itinerary.getD (d - 1) dayDefault).transportation with
                    | some t => t.cost.getD 0
                    | none => 0),
              some al, some (sf.flight_number.getD "N/A"), sf.booking_url⟩,
            some naMarker,
            (plan.itinerary.getD (d - 1) dayDefault).attractions,
            (plan.itinerary.getD (d - 1) dayDefault).meals,
            (plan.itinerary.getD (d - 1) dayDefault).daily_cost⟩⟩)
  else .ok plan

/-- The per-day component sum of the daily-cost recompute (lines 690-707):
transportation cost plus accommodation cost plus all attraction costs, each
contributing 0 when absent or non-numeric. -/
def recomputedSum (d : Day) : ℚ :=
  (match d.transportation with | some t => t.cost.getD 0 | none => 0) +
  (match d.accommodation with | some a => a.estimated_cost.getD 0 | none => 0) +
  d.attractions.foldl (fun acc a => acc + a.estimated_cost.getD 0) 0

/-- Lines 709-716: keep the larger of the model-reported daily cost (default:
the recomputed sum) and the recomputed sum, then truncate with int(). -/
def recomputeDay (d : Day) : Day :=
  ⟨d.transportation, d.accommodation, d.attractions, d.meals,
   some ((pyInt (max (d.daily_cost.getD (recomputedSum d)) (recomputedSum d)) : ℤ) : ℚ)⟩

def dailyCostPass (ds : List Day) : List Day := ds.map recomputeDay

/-- The selected flight dict after line 598 refreshed its booking_url. -/
def blockSf (plan : FinalPlan) (bk : String) : SelectedFlight :=
  ⟨(plan.selected_flight.getD emptySelectedFlight).airline,
   (plan.selected_flight.getD emptySelectedFlight).price,
   (plan.selected_flight.getD emptySelectedFlight).outbound,
   (plan.selected_flight.getD emptySelectedFlight).inbound,
   (plan.selected_flight.getD emptySelectedFlight).flight_number,
   some bk⟩

/-- The whole days>1 block (lines 591-716): booking-URL refresh (line 598),
day-1 injection, last-day injection, then the daily-cost recompute over every
day; skipped entirely when days ≤ 1, the itinerary is empty/absent, or the
selected flight is absent/empty. -/
def bigBlock (flights_data : Option (List RawFlight)) (plan : FinalPlan) :
    Except String FinalPlan :=
  if 1 < plan.days.getD 0 ∧ plan.itinerary.isEmpty = false ∧
      plan.selected_flight.isSome = true then
    match bookingUrl0 flights_data with
    | .error e => .error e
    | .ok bk =>
      match day1Inject (blockSf plan bk) plan.itinerary with
      | .error e => .error e
      | .ok it1 =>
        match lastDayInject (blockSf plan bk) (plan.days.getD 0)
            ⟨plan.destination, plan.days, some (blockSf plan bk),
             plan.selected_hotel, it1⟩ with
        | .error e => .error e
        | .ok plan2 =>
          .ok ⟨plan2.destination, plan2.days, plan2.selected_flight,
               plan2.selected_hotel, dailyCostPass plan2.itinerary⟩
  else .ok plan

/-- The reconciliation part of the /plan route (lines 447-716), composed in
source order: restaurant placeholder repair (individually wrapped, total),
flight repair, hotel repair, then the days>1 block.  An error is the uncaught
exception reaching the route-level handler at lines 841-845, which renders
the error page with no itinerary. -/
def planRoute (places_info : Option (List Place))
    (flights_data : Option (List RawFlight))
    (hotels_data : Option (List RawHotel)) (ns : NightsSrc)
    (plan : FinalPlan) : Except String FinalPlan :=
  match flightRepair flights_data (restaurantRepair places_info plan) with
  | .error e => .error e
  | .ok p2 => bigBlock flights_data (hotelRepair hotels_data ns p2)

-- ---------------------------------------------------------------
-- Budget summary: app.py lines 744-807 (and convert_to_krw, lines 151-153)
-- ---------------------------------------------------------------

/-- Config.EXCHANGE_RATES (src/config.py lines 30-89). -/
def EXCHANGE_RATES : List (String × ℚ) :=
  [ ("KRW", 1)
  , ("USD", 1380)
  , ("EUR", 1480)
  , ("GBP", 1760)
  , ("JPY", mkRat 46 5)
  , ("CNY", 190)
  , ("HKD", 177)
  , ("TWD", mkRat 85 2)
  , ("SGD", 1025)
  , ("MYR", 310)
  , ("THB", 38)
  , ("PHP", 24)
  , ("VND", mkRat 11 200)
  , ("IDR", mkRat 87 1000)
  , ("INR", mkRat 163 10)
  , ("PKR", mkRat 49 10)
  , ("BDT", mkRat 23 2)
  , ("LKR", mkRat 21 5)
  , ("NPR", mkRat 51 5)
  , ("AUD", 890)
  , ("NZD", 810)
  , ("CAD", 985)
  , ("CHF", 1565)
  , ("SEK", 127)
  , ("NOK", 125)
  , ("DKK", 198)
  , ("PLN", 340)
  , ("CZK", 60)
  , ("HUF", mkRat 19 5)
  , ("RUB", mkRat 71 5)
  , ("TRY", 40)
  , ("ZAR", 75)
  , ("BRL", 270)
  , ("MXN", 68)
  , ("ARS", mkRat 7 5)
  , ("CLP", mkRat 7 5)
  , ("COP", mkRat 33 100)
  , ("PEN", 365)
  , ("AED", 376)
  , ("SAR", 368)
  , ("QAR", 379)
  , ("KWD", 4500)
  , ("BHD", 3660)
  , ("OMR", 3585)
  , ("JOD", 1945)
  , ("ILS", 375)
  , ("EGP", 28)
  , ("MAD", 138)
  , ("TND", 440)
  , ("KES", mkRat 107 10)
  , ("NGN", mkRat 22 25)
  , ("GHS", 88)
  , ("ETB", 11)
  , ("TZS", mkRat 13 25)
  , ("UGX", mkRat 37 100)
  , ("ZMW", 50)
  , ("BWP", 100)
  , ("MUR", 30)
  , ("SCR", 101)
  ]

/-- Config.EXCHANGE_RATES.get(currency, 1.0). -/
def exchangeRate (c : String) : ℚ :=
  match EXCHANGE_RATES.find? (fun e => e.1 == c) with
  | some e => e.2
  | none => 1

/-- app.py convert_to_krw: int(amount * rate). -/
def convert_to_krw (amount : ℚ) (currency : String) : ℤ :=
  pyInt (amount * exchangeRate currency)

/-- Flight total of lines 747-752: the top offer price when the search
succeeded with a nonempty list, else 0 (the except branch also yields 0). -/
def flightTotalOf (flights_data : Option (List RawFlight)) : ℚ :=
  match flights_data with
  | some (f :: _) => f.price_total
  | _ => 0

/-- Hotel total of lines 755-781: first truthy of selected_hotel.price.total
and selected_hotel.estimated_cost; when still 0, fall back to the raw top
hotel price total, then base. -/
def hotelTotalSummary (plan : FinalPlan) (hotels_data : Option (List RawHotel)) : ℚ :=
  if truthyQ (plan.selected_hotel.getD emptySelectedHotel).price_total then
    (plan.selected_hotel.getD emptySelectedHotel).price_total.getD 0
  else if truthyQ (plan.selected_hotel.getD emptySelectedHotel).estimated_cost then
    (plan.selected_hotel.getD emptySelectedHotel).estimated_cost.getD 0
  else
    match hotels_data with
    | some (h :: _) =>
      if truthyQ h.price.total then h.price.total.getD 0
      else if truthyQ h.price.base then h.price.base.getD 0
      else 0
    | _ => 0

/-- The budget_summary dict of lines 793-807. -/
structure BudgetSummary where
  user_budget : ℤ
  total_cost : ℤ
  flight_total : ℤ
  hotel_total : ℤ
  hotel_total_krw : ℤ
  hotel_currency : String
  diff : ℤ
  is_over : Bool
  over_rate : ℚ
deriving DecidableEq, Repr

/-- The authoritative budget summary (lines 744-807), recomputed from the raw
provider data and the selected-hotel record; the model budget_breakdown is
not an input at all. -/
def budgetSummary (user_budget : ℤ) (flights_data : Option (List RawFlight))
    (hotels_data : Option (List RawHotel)) (plan : FinalPlan) : BudgetSummary :=
  ⟨user_budget,
   pyInt (flightTotalOf flights_data +
     ((convert_to_krw (hotelTotalSummary plan hotels_data)
        ((plan.selected_hotel.getD emptySelectedHotel).currency.getD "KRW")) : ℚ)),
   pyInt (flightTotalOf flights_data),
   pyInt (hotelTotalSummary plan hotels_data),
   convert_to_krw (hotelTotalSummary plan hotels_data)
     ((plan.selected_hotel.getD emptySelectedHotel).currency.getD "KRW"),
   (plan.selected_hotel.getD emptySelectedHotel).currency.getD "KRW",
   user_budget - pyInt (flightTotalOf flights_data +
     ((convert_to_krw (hotelTotalSummary plan hotels_data)
        ((plan.selected_hotel.getD emptySelectedHotel).currency.getD "KRW")) : ℚ)),
   decide ((user_budget : ℚ) < flightTotalOf flights_data +
     ((convert_to_krw (hotelTotalSummary plan hotels_data)
        ((plan.selected_hotel.getD emptySelectedHotel).currency.getD "KRW")) : ℚ)),
   if (user_budget : ℚ) < flightTotalOf flights_data +
       ((convert_to_krw (hotelTotalSummary plan hotels_data)
          ((plan.selected_hotel.getD emptySelectedHotel).currency.getD "KRW")) : ℚ) ∧
      0 < user_budget then
     pyRound1 (((flightTotalOf flights_data +
       ((convert_to_krw (hotelTotalSummary plan hotels_data)
          ((plan.selected_hotel.getD emptySelectedHotel).currency.getD "KRW")) : ℚ))
       - user_budget) / user_budget * 100)
   else 0⟩

-- ---------------------------------------------------------------
-- Arithmetic facts about pyInt (Python int() truncation)
-- ---------------------------------------------------------------

theorem rat_floor_le (q : ℚ) : ((q.floor : ℤ) : ℚ) ≤ q :=
  Rat.le_floor.mp (le_refl _)

theorem rat_lt_floor_add_one (q : ℚ) : q < ((q.floor : ℤ) : ℚ) + 1 := by
  by_contra h
  push_neg at h
  have h2 : q.floor + 1 ≤ q.floor := Rat.le_floor.mpr (by push_cast; linarith)
  omega

theorem rat_floor_add_int (q : ℚ) (n : ℤ) :
    (q + (n : ℚ)).floor = q.floor + n := by
  have h1 : q.floor + n ≤ (q + (n : ℚ)).floor :=
    Rat.le_floor.mpr (by push_cast; linarith [rat_floor_le q])
  have h2 : (q + (n : ℚ)).floor - n ≤ q.floor :=
    Rat.le_floor.mpr (by push_cast; linarith [rat_floor_le (q + (n : ℚ))])
  omega

theorem pyInt_gt_sub_one (q : ℚ) : q - 1 < ((pyInt q : ℤ) : ℚ) := by
  rw [pyInt]
  by_cases h : 0 ≤ q
  · rw [if_pos h]
    have := rat_lt_floor_add_one q
    linarith
  · rw [if_neg h]
    push_neg at h
    have := rat_floor_le (-q)
    push_cast
    linarith

theorem le_pyInt (n : ℤ) (q : ℚ) (h : (n : ℚ) ≤ q) : n ≤ pyInt q := by
  rw [pyInt]
  by_cases h0 : 0 ≤ q
  · rw [if_pos h0]
    exact Rat.le_floor.mpr h
  · rw [if_neg h0]
    push_neg at h0
    have h2 : ¬ ((-n + 1 : ℤ) ≤ (-q).floor) := by
      rw [Rat.le_floor]
      push_cast
      intro hc
      linarith
    omega

theorem pyInt_add_int (q : ℚ) (n : ℤ) (hq : 0 ≤ q) (hn : 0 ≤ n) :
    pyInt (q + (n : ℚ)) = pyInt q + n := by
  have hqn : (0 : ℚ) ≤ q + (n : ℚ) := by
    have : (0 : ℚ) ≤ (n : ℚ) := by exact_mod_cast hn
    linarith
  rw [pyInt, pyInt, if_pos hq, if_pos hqn, rat_floor_add_int]

theorem pyInt_intCast (n : ℤ) : pyInt ((n : ℤ) : ℚ) = n := by
  have h1 : n ≤ ((n : ℤ) : ℚ).floor := Rat.le_floor.mpr (le_refl _)
  have h2 : ((n : ℤ) : ℚ).floor ≤ n := by
    have := rat_floor_le ((n : ℤ) : ℚ)
    exact_mod_cast this
  have h3 : ((n : ℤ) : ℚ).floor = n := le_antisymm h2 h1
  rw [pyInt]
  by_cases h : 0 ≤ ((n : ℤ) : ℚ)
  · rw [if_pos h, h3]
  · rw [if_neg h]
    have h4 : (-((n : ℤ) : ℚ)).floor = -n := by
      have a1 : -n ≤ (-((n : ℤ) : ℚ)).floor :=
        Rat.le_floor.mpr (by push_cast; linarith)
      have a2 : (-((n : ℤ) : ℚ)).floor ≤ -n := by
        have := rat_floor_le (-((n : ℤ) : ℚ))
        have h5 : ((-((n : ℤ) : ℚ)).floor : ℚ) ≤ ((-n : ℤ) : ℚ) := by push_cast; linarith
        exact_mod_cast h5
      omega
    rw [h4]
    omega

-- ---------------------------------------------------------------
-- C5: budget summary claims
-- ---------------------------------------------------------------

def c5flight : RawFlight := ⟨["KE"], mkRat 1009 10, none, none, none⟩

def c5plan : FinalPlan := ⟨"Tokyo", some 0, none, none, []⟩

/-- C5 counterexample: with a float flight total of 100.9 and a user budget
of 100, the overage rate is 0.9 (nonzero) although total_cost, truncated with
int(), equals the user budget and does not exceed it — the claim that the
overage percentage is nonzero only when total_cost exceeds user_budget fails
at this input. -/
theorem c5_over_rate_counterexample :
    (budgetSummary 100 (some [c5flight]) none c5plan).over_rate = mkRat 9 10 ∧
    (budgetSummary 100 (some [c5flight]) none c5plan).over_rate ≠ 0 ∧
    (budgetSummary 100 (some [c5flight]) none c5plan).total_cost = 100 ∧
    (budgetSummary 100 (some [c5flight]) none c5plan).user_budget = 100 ∧
    ¬((budgetSummary 100 (some [c5flight]) none c5plan).user_budget
        < (budgetSummary 100 (some [c5flight]) none c5plan).total_cost) := by
  refine ⟨by decide, by decide, by decide, by decide, by decide⟩

/-- C5 (amended): the budget summary is recomputed from the raw provider data
and the selected-hotel record only (the model budget_breakdown is not an
input); diff always equals user_budget minus total_cost; for nonnegative
prices total_cost equals the reported flight_total plus hotel_total_krw; and
the overage rate is nonzero only when the untruncated sum flight_total +
hotel_total_krw (a float) exceeds user_budget — which, by int() truncation,
can happen while the reported total_cost still equals user_budget. -/
theorem c5_budget_summary (B : ℤ) (fd : Option (List RawFlight))
    (hd : Option (List RawHotel)) (plan : FinalPlan)
    (hf : 0 ≤ flightTotalOf fd)
    (hk : 0 ≤ (budgetSummary B fd hd plan).hotel_total_krw) :
    (budgetSummary B fd hd plan).diff
      = B - (budgetSummary B fd hd plan).total_cost ∧
    (budgetSummary B fd hd plan).total_cost
      = (budgetSummary B fd hd plan).flight_total
        + (budgetSummary B fd hd plan).hotel_total_krw ∧
    ((budgetSummary B fd hd plan).over_rate ≠ 0 →
      (budgetSummary B fd hd plan).is_over = true ∧ 0 < B ∧
      (B : ℚ) < flightTotalOf fd
        + ((budgetSummary B fd hd plan).hotel_total_krw : ℚ)) := by
  refine ⟨rfl, ?_, ?_⟩
  · exact pyInt_add_int (flightTotalOf fd) _ hf hk
  · intro h
    by_cases hc : (B : ℚ) < flightTotalOf fd +
        ((convert_to_krw (hotelTotalSummary plan hd)
          ((plan.selected_hotel.getD emptySelectedHotel).currency.getD "KRW")) : ℚ) ∧
        0 < B
    · exact ⟨decide_eq_true hc.1, hc.2, hc.1⟩
    · exact absurd (if_neg hc) h

/-- C5 witness: concrete instance with an integral flight price. -/
theorem c5_budget_summary_witness :
    ((0 : ℚ) ≤ flightTotalOf (some [⟨["KE"], 50, none, none, none⟩]) ∧
      (0 : ℤ) ≤ (budgetSummary 10 (some [⟨["KE"], 50, none, none, none⟩])
        none c5plan).hotel_total_krw) ∧
    ((budgetSummary 10 (some [⟨["KE"], 50, none, none, none⟩]) none c5plan).diff
      = 10 - (budgetSummary 10 (some [⟨["KE"], 50, none, none, none⟩])
          none c5plan).total_cost ∧
     (budgetSummary 10 (some [⟨["KE"], 50, none, none, none⟩]) none c5plan).total_cost
      = (budgetSummary 10 (some [⟨["KE"], 50, none, none, none⟩])
          none c5plan).flight_total
        + (budgetSummary 10 (some [⟨["KE"], 50, none, none, none⟩])
            none c5plan).hotel_total_krw ∧
     ((budgetSummary 10 (some [⟨["KE"], 50, none, none, none⟩])
          none c5plan).over_rate ≠ 0 →
       (budgetSummary 10 (some [⟨["KE"], 50, none, none, none⟩])
          none c5plan).is_over = true ∧ (0 : ℤ) < 10 ∧
       ((10 : ℤ) : ℚ) < flightTotalOf (some [⟨["KE"], 50, none, none, none⟩])
         + ((budgetSummary 10 (some [⟨["KE"], 50, none, none, none⟩])
              none c5plan).hotel_total_krw : ℚ))) :=
  ⟨⟨by decide, by decide⟩,
   c5_budget_summary 10 (some [⟨["KE"], 50, none, none, none⟩]) none c5plan
     (by decide) (by decide)⟩

-- ---------------------------------------------------------------
-- C9: exception wrapping of the repair steps
-- ---------------------------------------------------------------

def c9flight : RawFlight :=
  ⟨["KE"], 500000,
   some ⟨"ICN", "2025-11-10T09:00:00", "NRT", "2025-11-10T11:30:00"⟩,
   none, none⟩

def c9plan : FinalPlan :=
  ⟨"Tokyo, Japan", some 3, none, none, [dayDefault, dayDefault, dayDefault]⟩

/-- C9 counterexample: a successful flight search whose top offer is one-way
(inbound None) together with a model output lacking the selected-flight
summaries makes the flight repair read None['departure'] — the uncaught
TypeError aborts every remaining reconciliation step and the route returns
the error page, contradicting the claim that every repair step is
individually wrapped with no hard failure surfaced. -/
theorem c9_repair_exception_counterexample :
    planRoute none (some [c9flight]) none NightsSrc.noDates c9plan
      = .error "TypeError" := by rfl

/-- C9 (amended): only the restaurant-placeholder repair (and the photo
steps) are individually wrapped; the flight repair, hotel repair, transport
injection, daily-cost recompute and budget summary are guarded only by the
route-level handler, so an exception in the flight repair propagates: the
remaining steps never run and the caller receives the error page instead of a
best-effort itinerary. -/
theorem c9_unwrapped_flight_repair (pi : Option (List Place))
    (fd : Option (List RawFlight)) (hd : Option (List RawHotel))
    (ns : NightsSrc) (plan : FinalPlan) (e : String)
    (h : flightRepair fd (restaurantRepair pi plan) = .error e) :
    planRoute pi fd hd ns plan = .error e := by
  unfold planRoute
  rw [h]

/-- C9 witness: concrete aborted request. -/
theorem c9_unwrapped_flight_repair_witness :
    planRoute none (some [c9flight]) none NightsSrc.parseFail
      ⟨"Osaka, Japan", some 2, none, none, [dayDefault, dayDefault]⟩
      = .error "TypeError" :=
  c9_unwrapped_flight_repair none (some [c9flight]) none NightsSrc.parseFail
    ⟨"Osaka, Japan", some 2, none, none, [dayDefault, dayDefault]⟩
    "TypeError" (by rfl)

-- ---------------------------------------------------------------
-- C3: day-count preservation
-- ---------------------------------------------------------------

/-- Day count derived from the request dates (app.py line 183, dates as day
ordinals): (return - departure).days + 1. -/
def deriveDays (dep ret : ℤ) : ℤ := ret - dep + 1

theorem replaceDays_length (rests : List (String × String)) (idx : ℕ)
    (ds : List Day) : (replaceDays rests idx ds).2.length = ds.length := by
  induction ds generalizing idx with
  | nil => rfl
  | cons d t ih => simp only [replaceDays, List.length_cons, ih]

theorem restaurantRepair_shape (pi : Option (List Place)) (plan : FinalPlan) :
    (restaurantRepair pi plan).itinerary.length = plan.itinerary.length ∧
    (restaurantRepair pi plan).days = plan.days ∧
    (restaurantRepair pi plan).selected_flight = plan.selected_flight ∧
    (restaurantRepair pi plan).selected_hotel = plan.selected_hotel := by
  cases pi with
  | none => exact ⟨rfl, rfl, rfl, rfl⟩
  | some l =>
    cases l with
    | nil => exact ⟨rfl, rfl, rfl, rfl⟩
    | cons p ps =>
      simp only [restaurantRepair]
      by_cases h : plan.itinerary.isEmpty
      · rw [if_pos h]; exact ⟨rfl, rfl, rfl, rfl⟩
      · rw [if_neg h]; exact ⟨replaceDays_length _ _ _, rfl, rfl, rfl⟩

theorem flightRepair_ok_shape (fd : Option (List RawFlight)) (plan p : FinalPlan)
    (h : flightRepair fd plan = .ok p) :
    p.itinerary = plan.itinerary ∧ p.days = plan.days ∧
    p.selected_hotel = plan.selected_hotel := by
  cases fd with
  | none => cases h; exact ⟨rfl, rfl, rfl⟩
  | some l =>
    cases l with
    | nil => cases h; exact ⟨rfl, rfl, rfl⟩
    | cons api rest =>
      simp only [flightRepair] at h
      split at h
      · cases h; exact ⟨rfl, rfl, rfl⟩
      · split at h
        · cases h; exact ⟨rfl, rfl, rfl⟩
        · cases h

theorem hotelRepair_shape (hd : Option (List RawHotel)) (ns : NightsSrc)
    (plan : FinalPlan) :
    (hotelRepair hd ns plan).itinerary.length = plan.itinerary.length ∧
    (hotelRepair hd ns plan).days = plan.days ∧
    (hotelRepair hd ns plan).selected_flight = plan.selected_flight := by
  cases hd with
  | none => exact ⟨rfl, rfl, rfl⟩
  | some l =>
    cases l with
    | nil => exact ⟨rfl, rfl, rfl⟩
    | cons api rest => exact ⟨List.length_map _ _, rfl, rfl⟩

theorem day1Inject_ok_shape (sf : SelectedFlight) (it it1 : List Day)
    (h : day1Inject sf it = .ok it1) :
    it1.length = it.length ∧
    ∀ i, (it1.getD i dayDefault).accommodation
      = (it.getD i dayDefault).accommodation := by
  cases it with
  | nil => cases h; exact ⟨rfl, fun i => rfl⟩
  | cons d0 rest =>
    simp only [day1Inject] at h
    split at h
    · split at h
      · cases h
      · split at h
        · cases h
          refine ⟨List.length_set _ _ _, fun i => ?_⟩
          rw [List.set_cons_zero]
          cases i with
          | zero => rfl
          | succ j => rfl
        · cases h; exact ⟨rfl, fun i => rfl⟩
    · cases h; exact ⟨rfl, fun i => rfl⟩

theorem hotelLinkSpread_shape (plan : FinalPlan) :
    (hotelLinkSpread plan).itinerary.length = plan.itinerary.length := by
  cases hsh : plan.selected_hotel with
  | none => simp [hotelLinkSpread, hsh]
  | some sh =>
    cases hn : sh.name with
    | none => simp [hotelLinkSpread, hsh, hn]
    | some n =>
      by_cases he : n.isEmpty
      · simp [hotelLinkSpread, hsh, hn, he]
      · simp [hotelLinkSpread, hsh, hn, he]

theorem lastDayInject_ok_length (sf : SelectedFlight) (d : ℕ)
    (plan p : FinalPlan) (h : lastDayInject sf d plan = .ok p) :
    p.itinerary.length = plan.itinerary.length := by
  simp only [lastDayInject] at h
  split at h
  · split at h
    · cases h
    · cases h
      rw [hotelLinkSpread_shape]
      exact List.length_set _ _ _
  · cases h; rfl

theorem bigBlock_ok_length (fd : Option (List RawFlight)) (plan p : FinalPlan)
    (h : bigBlock fd plan = .ok p) :
    p.itinerary.length = plan.itinerary.length := by
  unfold bigBlock at h
  split at h
  · cases hbk : bookingUrl0 fd with
    | error e => simp only [hbk] at h; cases h
    | ok bk =>
      simp only [hbk] at h
      cases hit1 : day1Inject (blockSf plan bk) plan.itinerary with
      | error e => simp only [hit1] at h; cases h
      | ok it1 =>
        simp only [hit1] at h
        cases hpl2 : lastDayInject (blockSf plan bk) (plan.days.getD 0)
            ⟨plan.destination, plan.days, some (blockSf plan bk),
             plan.selected_hotel, it1⟩ with
        | error e => simp only [hpl2] at h; cases h
        | ok plan2 =>
          simp only [hpl2, Except.ok.injEq] at h
          subst h
          show (dailyCostPass plan2.itinerary).length = plan.itinerary.length
          rw [dailyCostPass, List.length_map]
          exact Eq.trans (lastDayInject_ok_length _ _ _ _ hpl2)
            ((day1Inject_ok_shape _ _ _ hit1).1)
  · cases h; rfl

/-- C3 counterexample: a request whose derived day count is 4 (within the
supported maximum of 14) whose model itinerary has only 2 day entries keeps
exactly 2 entries through the whole reconciliation — no step adds or removes
day entries, so the final itinerary does not have d entries. -/
theorem c3_day_count_counterexample :
    deriveDays 0 3 = 4 ∧ (0 : ℤ) < 4 ∧ (4 : ℤ) ≤ 14 ∧
    (planRoute none none none NightsSrc.noDates
        ⟨"Tokyo, Japan", some 2, none, none, [dayDefault, dayDefault]⟩).map
      (fun p => p.itinerary.length) = .ok 2 ∧
    (2 : ℕ) ≠ 4 := by
  refine ⟨by decide, by decide, by decide, by rfl, by decide⟩

/-- C3 (amended): the reconciliation pass preserves the number of per-day
entries exactly: the final itinerary has as many day entries as the model
output had, and nothing in the pipeline enforces the request day count (the
planner prompt merely asks for min(days, 5) entries while requests up to 14
days are accepted). -/
theorem c3_reconciliation_preserves_day_count (pi : Option (List Place))
    (fd : Option (List RawFlight)) (hd : Option (List RawHotel))
    (ns : NightsSrc) (plan p : FinalPlan)
    (h : planRoute pi fd hd ns plan = .ok p) :
    p.itinerary.length = plan.itinerary.length := by
  unfold planRoute at h
  cases hfr : flightRepair fd (restaurantRepair pi plan) with
  | error e => rw [hfr] at h; cases h
  | ok p2 =>
    rw [hfr] at h
    have hb := bigBlock_ok_length _ _ _ h
    have hh := hotelRepair_shape hd ns p2
    have hf := flightRepair_ok_shape _ _ _ hfr
    have hr := restaurantRepair_shape pi plan
    rw [hb, hh.1, hf.1, hr.1]

/-- C3 witness: a request the pipeline leaves untouched satisfies the
hypothesis with the plan itself as result. -/
theorem c3_reconciliation_preserves_day_count_witness :
    planRoute none none none NightsSrc.noDates
        ⟨"Paris, France", some 3, none, none,
          [dayDefault, dayDefault, dayDefault]⟩
      = .ok ⟨"Paris, France", some 3, none, none,
          [dayDefault, dayDefault, dayDefault]⟩ ∧
    (⟨"Paris, France", some 3, none, none,
        [dayDefault, dayDefault, dayDefault]⟩ : FinalPlan).itinerary.length
      = 3 := by
  refine ⟨rfl, ?_⟩
  exact Eq.trans (c3_reconciliation_preserves_day_count none none none
    NightsSrc.noDates
    ⟨"Paris, France", some 3, none, none,
      [dayDefault, dayDefault, dayDefault]⟩
    ⟨"Paris, France", some 3, none, none,
      [dayDefault, dayDefault, dayDefault]⟩ rfl) rfl

-- ---------------------------------------------------------------
-- C4: daily-cost recompute as a floor
-- ---------------------------------------------------------------

def c4day : Day :=
  ⟨some ⟨some "도보", none, some (mkRat 1 2), none, none, none⟩,
   none, [], [], none⟩

/-- C4 counterexample: a day whose only component cost is the float 0.5 and
whose model-reported daily cost is absent gets daily_cost = int(0.5) = 0
after the recompute — strictly below the component sum 0.5, so the claimed
invariant daily_cost ≥ transportation + accommodation + attractions fails
(int() truncation can lose up to one unit). -/
theorem c4_daily_cost_counterexample :
    recomputedSum ((dailyCostPass [c4day]).getD 0 dayDefault) = mkRat 1 2 ∧
    ((dailyCostPass [c4day]).getD 0 dayDefault).daily_cost = some 0 ∧
    ¬(recomputedSum ((dailyCostPass [c4day]).getD 0 dayDefault)
        ≤ ((dailyCostPass [c4day]).getD 0 dayDefault).daily_cost.getD 0) := by
  refine ⟨by decide, by decide, by decide⟩

/-- C4 (amended): the daily-cost pass maps every day to
daily_cost = int(max(model-reported, recomputed sum)).  The recomputation is
a floor in the truncated sense: the stored value exceeds the component sum
minus one, equals at least the sum whenever the sum is integral, and the
model-reported figure is kept (truncated) whenever it exceeds the sum; but
int() truncation can leave the stored value strictly below a fractional
component sum. -/
theorem c4_daily_cost_recompute (ds : List Day) (d : Day) :
    dailyCostPass ds = ds.map recomputeDay ∧
    (recomputeDay d).daily_cost
      = some ((pyInt (max (d.daily_cost.getD (recomputedSum d))
          (recomputedSum d)) : ℤ) : ℚ) ∧
    recomputedSum (recomputeDay d) = recomputedSum d ∧
    recomputedSum d - 1
      < ((pyInt (max (d.daily_cost.getD (recomputedSum d))
          (recomputedSum d)) : ℤ) : ℚ) ∧
    (∀ n : ℤ, recomputedSum d = (n : ℚ)
      → n ≤ pyInt (max (d.daily_cost.getD (recomputedSum d)) (recomputedSum d))) ∧
    (∀ llm : ℚ, d.daily_cost = some llm → recomputedSum d < llm →
      (recomputeDay d).daily_cost = some ((pyInt llm : ℤ) : ℚ)) := by
  refine ⟨rfl, rfl, rfl, ?_, ?_, ?_⟩
  · have h1 := pyInt_gt_sub_one
      (max (d.daily_cost.getD (recomputedSum d)) (recomputedSum d))
    have h2 := le_max_right (d.daily_cost.getD (recomputedSum d)) (recomputedSum d)
    linarith
  · intro n hn
    refine le_pyInt n _ ?_
    rw [← hn]
    exact le_max_right _ _
  · intro llm hl hlt
    have h2 : (recomputeDay d).daily_cost
        = some ((pyInt (max (d.daily_cost.getD (recomputedSum d))
            (recomputedSum d)) : ℤ) : ℚ) := rfl
    rw [h2, hl]
    simp only [Option.getD_some]
    rw [max_eq_left (le_of_lt hlt)]

/-- C4 witness: integral components (sum 3) with a larger reported cost 10:
the reported figure is kept and the floor bound holds. -/
theorem c4_daily_cost_recompute_witness :
    (recomputeDay ⟨some ⟨some "지하철", none, some 3, none, none, none⟩,
        none, [], [], some 10⟩).daily_cost = some (10 : ℚ) ∧
    (3 : ℤ) ≤ pyInt (max
      ((⟨some ⟨some "지하철", none, some 3, none, none, none⟩,
        none, [], [], some 10⟩ : Day).daily_cost.getD
          (recomputedSum ⟨some ⟨some "지하철", none, some 3, none, none, none⟩,
            none, [], [], some 10⟩))
      (recomputedSum ⟨some ⟨some "지하철", none, some 3, none, none, none⟩,
        none, [], [], some 10⟩)) := by
  have h := c4_daily_cost_recompute []
    ⟨some ⟨some "지하철", none, some 3, none, none, none⟩, none, [], [], some 10⟩
  refine ⟨?_, h.2.2.2.2.1 3 (by decide)⟩
  rw [h.2.2.2.2.2 10 rfl (by decide)]
  decide

-- ---------------------------------------------------------------
-- C8: last-day accommodation marker
-- ---------------------------------------------------------------

theorem isEmpty_false_of_pos (l : List Day) (h : 0 < l.length) :
    l.isEmpty = false := by
  cases l with
  | nil => simp at h
  | cons a t => rfl

theorem syncAcc_trans (nh : SelectedHotel) (pn : ℚ) (day : Day) :
    (syncAcc nh pn day).transportation = day.transportation := by
  unfold syncAcc
  cases day.accommodation with
  | none => rfl
  | some acc =>
    show (if acc.name = some "N/A" then day
      else ⟨day.transportation,
        some ⟨nh.name, nh.address, nh.htype, some pn, nh.booking_url⟩,
        day.attractions, day.meals, day.daily_cost⟩).transportation
      = day.transportation
    by_cases hna : acc.name = some "N/A"
    · rw [if_pos hna]
    · rw [if_neg hna]

theorem syncAcc_overwrite (nh : SelectedHotel) (pn : ℚ) (day : Day)
    (acc : Accommodation) (hacc : day.accommodation = some acc)
    (hna : acc.name ≠ some "N/A") :
    (syncAcc nh pn day).accommodation
      = some ⟨nh.name, nh.address, nh.htype, some pn, nh.booking_url⟩ := by
  unfold syncAcc
  rw [hacc]
  show (if acc.name = some "N/A" then day
    else ⟨day.transportation,
      some ⟨nh.name, nh.address, nh.htype, some pn, nh.booking_url⟩,
      day.attractions, day.meals, day.daily_cost⟩).accommodation = _
  rw [if_neg hna]

theorem day1Inject_isOk (sf : SelectedFlight) (it : List Day)
    (h : (it.getD 0 dayDefault).transportation.isSome = true) :
    ∃ it1, day1Inject sf it = .ok it1 := by
  cases hres : day1Inject sf it with
  | ok it1 => exact ⟨it1, rfl⟩
  | error e =>
    exfalso
    cases it with
    | nil =>
      rw [show day1Inject sf [] = Except.ok [] from rfl] at hres
      cases hres
    | cons d0 rest =>
      simp only [day1Inject] at hres
      split at hres
      · split at hres
        · rename_i heq
          rw [show (d0 :: rest).getD 0 dayDefault = d0 from rfl, heq] at h
          cases h
        · split at hres
          · cases hres
          · cases hres
      · cases hres

theorem getD_map_of_lt (f : Day → Day) (l : List Day) (i : ℕ)
    (h : i < l.length) :
    (l.map f).getD i dayDefault = f (l.getD i dayDefault) := by
  rw [List.getD_eq_getElem?_getD, List.getD_eq_getElem?_getD,
    List.getElem?_map, List.getElem?_eq_getElem h]
  rfl

theorem getD_set_self (l : List Day) (i : ℕ) (a : Day) (h : i < l.length) :
    (l.set i a).getD i dayDefault = a := by
  rw [List.getD_eq_getElem?_getD, List.getElem?_set, if_pos rfl, if_pos h]
  rfl

theorem getD_set_ne (l : List Day) (i j : ℕ) (a : Day) (h : ¬ i = j) :
    (l.set i a).getD j dayDefault = l.getD j dayDefault := by
  rw [List.getD_eq_getElem?_getD, List.getD_eq_getElem?_getD,
    List.getElem?_set, if_neg h]

theorem setBookingUrl_name (n url : String) (day : Day) :
    ((setBookingUrl n url day).accommodation).map (fun a => a.name)
      = (day.accommodation).map (fun a => a.name) := by
  unfold setBookingUrl
  cases hacc : day.accommodation with
  | none =>
    show Option.map (fun a => a.name) day.accommodation = _
    rw [hacc]
  | some acc =>
    show Option.map (fun a => a.name)
      ((if acc.name = some n then
        (⟨day.transportation,
          some ⟨acc.name, acc.address, acc.atype, acc.estimated_cost, some url⟩,
          day.attractions, day.meals, day.daily_cost⟩ : Day)
       else day)).accommodation = _
    by_cases hn : acc.name = some n
    · rw [if_pos hn]
      rfl
    · rw [if_neg hn]
      show Option.map (fun a => a.name) day.accommodation = _
      rw [hacc]

theorem setBookingUrl_na (n url : String) (day : Day) (hne : ¬ n = "N/A")
    (h : day.accommodation = some naMarker) :
    (setBookingUrl n url day).accommodation = some naMarker := by
  unfold setBookingUrl
  rw [h]
  show ((if naMarker.name = some n then
      (⟨day.transportation,
        some ⟨naMarker.name, naMarker.address, naMarker.atype,
          naMarker.estimated_cost, some url⟩,
        day.attractions, day.meals, day.daily_cost⟩ : Day)
    else day)).accommodation = some naMarker
  rw [if_neg (by
    show ¬ some "N/A" = some n
    intro hc
    exact hne (Option.some.injEq "N/A" n ▸ hc).symm)]
  exact h

theorem dailyCostPass_acc (l : List Day) (i : ℕ) :
    ((dailyCostPass l).getD i dayDefault).accommodation
      = ((l.getD i dayDefault)).accommodation := by
  rw [dailyCostPass, List.getD_eq_getElem?_getD, List.getD_eq_getElem?_getD,
    List.getElem?_map]
  cases l[i]? with
  | none => rfl
  | some day => rfl

theorem hotelLinkSpread_name_proj (P : FinalPlan) (i : ℕ) :
    (((hotelLinkSpread P).itinerary.getD i dayDefault).accommodation).map
      (fun a => a.name)
      = ((P.itinerary.getD i dayDefault).accommodation).map (fun a => a.name) := by
  unfold hotelLinkSpread
  cases hsh : P.selected_hotel with
  | none => rfl
  | some sh =>
    show ((match sh.name with
      | some n =>
        if n.isEmpty then P
        else ⟨P.destination, P.days, P.selected_flight,
          some ⟨sh.name, sh.address, sh.htype, sh.estimated_cost,
            sh.per_night_cost, sh.currency, sh.price_total,
            some (hotelLink n (splitCity P.destination))⟩,
          P.itinerary.map
            (setBookingUrl n (hotelLink n (splitCity P.destination)))⟩
      | none => P).itinerary.getD i dayDefault).accommodation.map
        (fun a : Accommodation => a.name) = _
    cases hn : sh.name with
    | none => rfl
    | some n =>
      show ((((if n.isEmpty then P
          else ⟨P.destination, P.days, P.selected_flight,
            some ⟨some n, sh.address, sh.htype, sh.estimated_cost,
              sh.per_night_cost, sh.currency, sh.price_total,
              some (hotelLink n (splitCity P.destination))⟩,
            P.itinerary.map
              (setBookingUrl n (hotelLink n (splitCity P.destination)))⟩)).itinerary.getD
          i dayDefault).accommodation).map (fun a => a.name) = _
      by_cases he : n.isEmpty
      · rw [if_pos he]
      · rw [if_neg he]
        show (((P.itinerary.map
            (setBookingUrl n (hotelLink n (splitCity P.destination)))).getD i
            dayDefault).accommodation).map (fun a => a.name) = _
        rw [List.getD_eq_getElem?_getD, List.getD_eq_getElem?_getD,
          List.getElem?_map]
        cases P.itinerary[i]? with
        | none => rfl
        | some day => exact setBookingUrl_name _ _ day

theorem hotelLinkSpread_na_proj (P : FinalPlan) (i : ℕ) (sh : SelectedHotel)
    (nm : String) (hsh : P.selected_hotel = some sh) (hn : sh.name = some nm)
    (hnm : ¬ nm = "N/A")
    (h : (P.itinerary.getD i dayDefault).accommodation = some naMarker) :
    ((hotelLinkSpread P).itinerary.getD i dayDefault).accommodation
      = some naMarker := by
  unfold hotelLinkSpread
  rw [hsh]
  show ((match sh.name with
    | some n =>
      if n.isEmpty then P
      else ⟨P.destination, P.days, P.selected_flight,
        some ⟨sh.name, sh.address, sh.htype, sh.estimated_cost,
          sh.per_night_cost, sh.currency, sh.price_total,
          some (hotelLink n (splitCity P.destination))⟩,
        P.itinerary.map (setBookingUrl n (hotelLink n (splitCity P.destination)))⟩
    | none => P).itinerary.getD i dayDefault).accommodation = some naMarker
  rw [hn]
  show (((if nm.isEmpty then P
      else ⟨P.destination, P.days, P.selected_flight,
        some ⟨some nm, sh.address, sh.htype, sh.estimated_cost,
          sh.per_night_cost, sh.currency, sh.price_total,
          some (hotelLink nm (splitCity P.destination))⟩,
        P.itinerary.map
          (setBookingUrl nm (hotelLink nm (splitCity P.destination)))⟩)).itinerary.getD
      i dayDefault).accommodation = some naMarker
  by_cases he : nm.isEmpty
  · rw [if_pos he]; exact h
  · rw [if_neg he]
    show ((P.itinerary.map
        (setBookingUrl nm (hotelLink nm (splitCity P.destination)))).getD i
        dayDefault).accommodation = some naMarker
    rw [List.getD_eq_getElem?_getD, List.getElem?_map]
    rw [List.getD_eq_getElem?_getD] at h
    cases hi : P.itinerary[i]? with
    | none => rw [hi] at h; exact h
    | some day =>
      rw [hi] at h
      exact setBookingUrl_na nm _ day hnm h

theorem setBookingUrl_trans (n url : String) (day : Day) :
    (setBookingUrl n url day).transportation = day.transportation := by
  unfold setBookingUrl
  cases day.accommodation with
  | none => rfl
  | some acc =>
    show (if acc.name = some n then
      (⟨day.transportation,
        some ⟨acc.name, acc.address, acc.atype, acc.estimated_cost, some url⟩,
        day.attractions, day.meals, day.daily_cost⟩ : Day)
     else day).transportation = day.transportation
    by_cases hn : acc.name = some n
    · rw [if_pos hn]
    · rw [if_neg hn]

theorem hotelLinkSpread_trans_proj (P : FinalPlan) (i : ℕ) :
    ((hotelLinkSpread P).itinerary.getD i dayDefault).transportation
      = (P.itinerary.getD i dayDefault).transportation := by
  unfold hotelLinkSpread
  cases hsh : P.selected_hotel with
  | none => rfl
  | some sh =>
    show ((match sh.name with
      | some n =>
        if n.isEmpty then P
        else ⟨P.destination, P.days, P.selected_flight,
          some ⟨sh.name, sh.address, sh.htype, sh.estimated_cost,
            sh.per_night_cost, sh.currency, sh.price_total,
            some (hotelLink n (splitCity P.destination))⟩,
          P.itinerary.map
            (setBookingUrl n (hotelLink n (splitCity P.destination)))⟩
      | none => P).itinerary.getD i dayDefault).transportation = _
    cases hn : sh.name with
    | none => rfl
    | some n =>
      show (((if n.isEmpty then P
          else ⟨P.destination, P.days, P.selected_flight,
            some ⟨some n, sh.address, sh.htype, sh.estimated_cost,
              sh.per_night_cost, sh.currency, sh.price_total,
              some (hotelLink n (splitCity P.destination))⟩,
            P.itinerary.map
              (setBookingUrl n (hotelLink n (splitCity P.destination)))⟩)).itinerary.getD
          i dayDefault).transportation = _
      by_cases he : n.isEmpty
      · rw [if_pos he]
      · rw [if_neg he]
        show ((P.itinerary.map
            (setBookingUrl n (hotelLink n (splitCity P.destination)))).getD i
            dayDefault).transportation = _
        rw [List.getD_eq_getElem?_getD, List.getD_eq_getElem?_getD,
          List.getElem?_map]
        cases P.itinerary[i]? with
        | none => rfl
        | some day => exact setBookingUrl_trans _ _ day

theorem dailyCostPass_trans (l : List Day) (i : ℕ) :
    ((dailyCostPass l).getD i dayDefault).transportation
      = ((l.getD i dayDefault)).transportation := by
  rw [dailyCostPass, List.getD_eq_getElem?_getD, List.getD_eq_getElem?_getD,
    List.getElem?_map]
  cases l[i]? with
  | none => rfl
  | some day => rfl

theorem day1Inject_ok_tail (sf : SelectedFlight) (it it1 : List Day)
    (h : day1Inject sf it = .ok it1) :
    ∀ i, ¬ i = 0 → it1.getD i dayDefault = it.getD i dayDefault := by
  cases it with
  | nil => cases h; exact fun i hi => rfl
  | cons d0 rest =>
    simp only [day1Inject] at h
    split at h
    · split at h
      · cases h
      · split at h
        · cases h
          intro i hi
          exact getD_set_ne _ _ _ _ (fun hc => hi hc.symm)
        · cases h; exact fun i hi => rfl
    · cases h; exact fun i hi => rfl

theorem hotelLinkSpread_na (P : FinalPlan) (i : ℕ)
    (hna : ∀ sh, P.selected_hotel = some sh → ¬ sh.name = some "N/A")
    (h : (P.itinerary.getD i dayDefault).accommodation = some naMarker) :
    ((hotelLinkSpread P).itinerary.getD i dayDefault).accommodation
      = some naMarker := by
  cases hsh : P.selected_hotel with
  | none => simp only [hotelLinkSpread, hsh]; exact h
  | some sh =>
    cases hn : sh.name with
    | none => simp only [hotelLinkSpread, hsh, hn]; exact h
    | some nm =>
      by_cases he : nm.isEmpty
      · simp only [hotelLinkSpread, hsh, hn]
        rw [if_pos he]
        exact h
      · exact hotelLinkSpread_na_proj P i sh nm hsh hn
          (fun hc => hna sh hsh (by rw [hn, hc])) h

/-- The replacement last-day record written by lines 652-669: inbound flight
transportation, "N/A" accommodation, other fields kept. -/
def lastDayNew (sf : SelectedFlight) (d : ℕ) (P : FinalPlan) (al : String) :
    Day :=
  ⟨some ⟨some "비행기", some ("귀국편: " ++ sf.inbound.getD ""),
     some (match (P.itinerary.getD (d - 1) dayDefault).transportation with
           | some t => t.cost.getD 0
           | none => 0),
     some al, some (sf.flight_number.getD "N/A"), sf.booking_url⟩,
   some naMarker,
   (P.itinerary.getD (d - 1) dayDefault).attractions,
   (P.itinerary.getD (d - 1) dayDefault).meals,
   (P.itinerary.getD (d - 1) dayDefault).daily_cost⟩

theorem lastDayInject_ok_form (sf : SelectedFlight) (d : ℕ) (P : FinalPlan)
    (al : String) (hal : sf.airline = some al)
    (hib : truthyS sf.inbound = true) (hdl : d - 1 < P.itinerary.length) :
    lastDayInject sf d P = .ok (hotelLinkSpread
      ⟨P.destination, P.days, P.selected_flight, P.selected_hotel,
       P.itinerary.set (d - 1) (lastDayNew sf d P al)⟩) := by
  unfold lastDayInject
  rw [if_pos ⟨hdl, hib⟩]
  simp only [hal]
  rfl

theorem lastDayInject_props (sf : SelectedFlight) (d : ℕ) (P : FinalPlan)
    (al : String) (hal : sf.airline = some al)
    (hib : truthyS sf.inbound = true) (hdl : d - 1 < P.itinerary.length)
    (hna : ∀ sh, P.selected_hotel = some sh → ¬ sh.name = some "N/A") :
    ∃ p2, lastDayInject sf d P = .ok p2 ∧
      p2.itinerary.length = P.itinerary.length ∧
      (p2.itinerary.getD (d - 1) dayDefault).accommodation = some naMarker ∧
      (p2.itinerary.getD (d - 1) dayDefault).transportation
        = some ⟨some "비행기", some ("귀국편: " ++ sf.inbound.getD ""),
            some (match (P.itinerary.getD (d - 1) dayDefault).transportation with
                  | some t => t.cost.getD 0
                  | none => 0),
            some al, some (sf.flight_number.getD "N/A"), sf.booking_url⟩ ∧
      ∀ i, ¬ i = d - 1 →
        (((p2.itinerary.getD i dayDefault).accommodation).map
            (fun a => a.name))
          = (((P.itinerary.getD i dayDefault).accommodation).map
              (fun a => a.name)) := by
  refine ⟨_, lastDayInject_ok_form sf d P al hal hib hdl, ?_, ?_, ?_, ?_⟩
  · rw [hotelLinkSpread_shape]
    exact List.length_set _ _ _
  · refine hotelLinkSpread_na _ _ hna ?_
    show ((P.itinerary.set (d - 1) (lastDayNew sf d P al)).getD (d - 1)
      dayDefault).accommodation = some naMarker
    rw [getD_set_self _ _ _ hdl]
    rfl
  · rw [hotelLinkSpread_trans_proj]
    show ((P.itinerary.set (d - 1) (lastDayNew sf d P al)).getD (d - 1)
      dayDefault).transportation = _
    rw [getD_set_self _ _ _ hdl]
    rfl
  · intro i hi
    rw [hotelLinkSpread_name_proj]
    show (((P.itinerary.set (d - 1) (lastDayNew sf d P al)).getD i
        dayDefault).accommodation).map (fun a => a.name) = _
    rw [getD_set_ne _ _ _ _ (fun hc => hi hc.symm)]

theorem bigBlock_props (fd : Option (List RawFlight)) (P : FinalPlan)
    (sf : SelectedFlight) (bk al : String) (d : ℕ)
    (hd : P.days.getD 0 = d) (hdd : 1 < d)
    (hsf : P.selected_flight = some sf)
    (hbk : bookingUrl0 fd = .ok bk)
    (ht0 : ((P.itinerary.getD 0 dayDefault).transportation).isSome = true)
    (hal : sf.airline = some al)
    (hib : truthyS sf.inbound = true)
    (hdl : d - 1 < P.itinerary.length)
    (hna : ∀ sh, P.selected_hotel = some sh → ¬ sh.name = some "N/A") :
    ∃ pf, bigBlock fd P = .ok pf ∧
      pf.itinerary.length = P.itinerary.length ∧
      (pf.itinerary.getD (d - 1) dayDefault).accommodation = some naMarker ∧
      (pf.itinerary.getD (d - 1) dayDefault).transportation
        = some ⟨some "비행기", some ("귀국편: " ++ sf.inbound.getD ""),
            some (match (P.itinerary.getD (d - 1) dayDefault).transportation with
                  | some t => t.cost.getD 0
                  | none => 0),
            some al, some (sf.flight_number.getD "N/A"), some bk⟩ ∧
      ∀ i, ¬ i = d - 1 →
        (((pf.itinerary.getD i dayDefault).accommodation).map
            (fun a => a.name))
          = (((P.itinerary.getD i dayDefault).accommodation).map
              (fun a => a.name)) := by
  have hc1 : 1 < P.days.getD 0 := by rw [hd]; exact hdd
  have hc2 : P.itinerary.isEmpty = false :=
    isEmpty_false_of_pos P.itinerary (Nat.lt_of_le_of_lt (Nat.zero_le _) hdl)
  have hc3 : P.selected_flight.isSome = true := by rw [hsf]; rfl
  obtain ⟨it1, hit1⟩ := day1Inject_isOk (blockSf P bk) P.itinerary ht0
  obtain ⟨hlen1, hacc1⟩ := day1Inject_ok_shape _ _ _ hit1
  have hal2 : (blockSf P bk).airline = some al := by
    show (P.selected_flight.getD emptySelectedFlight).airline = some al
    rw [hsf]
    exact hal
  have hib2 : truthyS (blockSf P bk).inbound = true := by
    show truthyS (P.selected_flight.getD emptySelectedFlight).inbound = true
    rw [hsf]
    exact hib
  obtain ⟨p2, hp2, hl2, hlast2, htr2, hoth2⟩ := lastDayInject_props (blockSf P bk) d
    ⟨P.destination, P.days, some (blockSf P bk), P.selected_hotel, it1⟩ al
    hal2 hib2 (by show d - 1 < it1.length; rw [hlen1]; exact hdl) hna
  have htail : it1.getD (d - 1) dayDefault = P.itinerary.getD (d - 1) dayDefault :=
    day1Inject_ok_tail _ _ _ hit1 (d - 1) (Nat.sub_ne_zero_of_lt hdd)
  unfold bigBlock
  rw [if_pos ⟨hc1, hc2, hc3⟩]
  simp only [hbk, hit1]
  rw [hd]
  simp only [hp2]
  refine ⟨_, rfl, ?_, ?_, ?_, ?_⟩
  · show (dailyCostPass p2.itinerary).length = P.itinerary.length
    rw [dailyCostPass, List.length_map]
    exact hl2.trans hlen1
  · show ((dailyCostPass p2.itinerary).getD (d - 1)
      dayDefault).accommodation = some naMarker
    rw [dailyCostPass_acc]
    exact hlast2
  · show ((dailyCostPass p2.itinerary).getD (d - 1)
      dayDefault).transportation = _
    rw [dailyCostPass_trans, htr2]
    show some (⟨some "비행기",
        some ("귀국편: " ++ (blockSf P bk).inbound.getD ""),
        some (match (it1.getD (d - 1) dayDefault).transportation with
              | some t => t.cost.getD 0
              | none => 0),
        some al, some ((blockSf P bk).flight_number.getD "N/A"),
        (blockSf P bk).booking_url⟩ : Transportation) = _
    rw [htail]
    simp only [blockSf]
    rw [hsf]
    rfl
  · intro i hi
    show (((dailyCostPass p2.itinerary).getD i
        dayDefault).accommodation).map (fun a => a.name) = _
    rw [dailyCostPass_acc, hoth2 i hi]
    show ((it1.getD i dayDefault).accommodation).map (fun a => a.name) = _
    rw [hacc1 i]

def c8xsf : SelectedFlight :=
  ⟨some "KE", some 100, none, none, some "KE123", none⟩

def c8xacc : Accommodation := ⟨some "호텔X", none, none, some 5, none⟩

def c8xday0 : Day :=
  ⟨some ⟨some "비행기", some "x", some 10, none, none, none⟩,
   some c8xacc, [], [], none⟩

def c8xday1 : Day := ⟨none, some c8xacc, [], [], none⟩

def c8xplan : FinalPlan :=
  ⟨"서울", some 2, some c8xsf, none, [c8xday0, c8xday1]⟩

/-- C8 counterexample: a two-day plan whose model flight record has no
inbound summary (a one-way trip) passes the whole reconciliation without
error, yet the last day keeps its original hotel accommodation instead of
the "N/A" marker. -/
theorem c8_last_day_counterexample :
    (planRoute none none none NightsSrc.noDates c8xplan).map
        (fun p => (p.itinerary.getD 1 dayDefault).accommodation)
      = .ok (some c8xacc) ∧ ¬ c8xacc = naMarker := by
  exact ⟨rfl, by decide⟩

def c8wsf : SelectedFlight :=
  ⟨some "KE", some 100, none, some "IN", some "KE123", none⟩

def c8wplan : FinalPlan :=
  ⟨"서울", some 2, some c8wsf, none, [c8xday0, c8xday1]⟩

/-- C8: the last-day overwrite and the preservation of the earlier days hold
only on the guarded path: more than one day, a non-empty itinerary, a
selected flight with a truthy inbound summary and an airline key, a first
day carrying a transportation dict, a last-day index inside the itinerary,
and a resolved hotel not itself named "N/A".  On that path the reconciled
plan keeps its day count, its last day's accommodation is exactly the "N/A"
marker and its last day's transportation is exactly the inbound-flight
record (type 비행기, the 귀국편 inbound summary, the day's previous
transportation cost or 0, the flight's airline and number, the refreshed
booking URL), and every other day's accommodation name (and presence) is
unchanged from the post-hotel-repair plan — so it is non-null exactly where
the hotel repair left it non-null. -/
theorem c8_last_day_na (places : Option (List Place))
    (fd : Option (List RawFlight)) (hotels : Option (List RawHotel))
    (ns : NightsSrc) (plan p2 p3 : FinalPlan) (sf : SelectedFlight)
    (bk al : String) (d : ℕ)
    (hfr : flightRepair fd (restaurantRepair places plan) = .ok p2)
    (hp3 : hotelRepair hotels ns p2 = p3)
    (hd : p3.days.getD 0 = d) (hdd : 1 < d)
    (hsf : p3.selected_flight = some sf)
    (hbk : bookingUrl0 fd = .ok bk)
    (ht0 : ((p3.itinerary.getD 0 dayDefault).transportation).isSome = true)
    (hal : sf.airline = some al)
    (hib : truthyS sf.inbound = true)
    (hdl : d - 1 < p3.itinerary.length)
    (hna : ∀ sh, p3.selected_hotel = some sh → ¬ sh.name = some "N/A") :
    ∃ pf, planRoute places fd hotels ns plan = .ok pf ∧
      pf.itinerary.length = p3.itinerary.length ∧
      (pf.itinerary.getD (d - 1) dayDefault).accommodation = some naMarker ∧
      (pf.itinerary.getD (d - 1) dayDefault).transportation
        = some ⟨some "비행기", some ("귀국편: " ++ sf.inbound.getD ""),
            some (match (p3.itinerary.getD (d - 1) dayDefault).transportation with
                  | some t => t.cost.getD 0
                  | none => 0),
            some al, some (sf.flight_number.getD "N/A"), some bk⟩ ∧
      ∀ i, ¬ i = d - 1 →
        (((pf.itinerary.getD i dayDefault).accommodation).map
            (fun a => a.name))
          = (((p3.itinerary.getD i dayDefault).accommodation).map
              (fun a => a.name)) := by
  obtain ⟨pf, hpf, h1, h2, h2t, h3⟩ :=
    bigBlock_props fd p3 sf bk al d hd hdd hsf hbk ht0 hal hib hdl hna
  refine ⟨pf, ?_, h1, h2, h2t, h3⟩
  unfold planRoute
  simp only [hfr]
  rw [hp3]
  exact hpf

/-- C8 witness: the amended theorem applied to a concrete round-trip plan. -/
theorem c8_last_day_na_witness :
    ∃ pf, planRoute none none none NightsSrc.noDates c8wplan = .ok pf ∧
      pf.itinerary.length = c8wplan.itinerary.length ∧
      (pf.itinerary.getD (2 - 1) dayDefault).accommodation = some naMarker ∧
      (pf.itinerary.getD (2 - 1) dayDefault).transportation
        = some ⟨some "비행기", some ("귀국편: " ++ c8wsf.inbound.getD ""),
            some (match (c8wplan.itinerary.getD (2 - 1)
                    dayDefault).transportation with
                  | some t => t.cost.getD 0
                  | none => 0),
            some "KE", some (c8wsf.flight_number.getD "N/A"), some "#"⟩ ∧
      ∀ i, ¬ i = 2 - 1 →
        (((pf.itinerary.getD i dayDefault).accommodation).map
            (fun a => a.name))
          = (((c8wplan.itinerary.getD i dayDefault).accommodation).map
              (fun a => a.name)) :=
  c8_last_day_na none none none NightsSrc.noDates c8wplan c8wplan c8wplan
    c8wsf "#" "KE" 2 rfl rfl rfl (by decide) rfl rfl rfl rfl rfl (by decide)
    (fun sh h => Option.noConfusion h)
